import Mathlib

/-!
Verification development for the app-server notification converter
(`AppServerEventConverter` in `appServerEventConverter.ts`) and the tool-call
emitter of the codex remote launcher (`handleCodexEvent` and `extractCallId`
in `codexRemoteLauncher.ts`).

JavaScript runtime values are modelled by the inductive type `JVal`; JS
objects are association lists with latest-insertion-wins lookup.  The values
`undefined` and `null` are conflated (a missing key plays the role of
`undefined`), which is faithful for this code base: every use of either value
in the translated sources goes through `??`, truthiness tests, or `typeof`
guards, all of which treat `null` and `undefined` identically.  The random
UUIDs produced by `randomUUID()` are modelled by a deterministic counter
threaded through the emitter state; the `id: randomUUID()` field attached to
every outbound message is omitted from the model since nothing reads it.
-/

set_option maxHeartbeats 1000000

inductive JVal where
  | null
  | bool (b : Bool)
  | num (n : Int)
  | str (s : String)
  | arr (elems : List JVal)
  | obj (fields : List (String × JVal))

abbrev Obj := List (String × JVal)

/-- Lookup in an association list used to model both JS object property access
and `Map.get`; the first (most recently set) binding wins. -/
def mget {α : Type} : List (String × α) → String → Option α
  | [], _ => none
  | (k', v) :: rest, k => if k' = k then some v else mget rest k

/-- Model of `Map.set` and of JS property assignment: prepend, so that `mget`
returns the latest binding. -/
def mset {α : Type} (m : List (String × α)) (k : String) (v : α) :
    List (String × α) :=
  (k, v) :: m

/-- Model of `Map.delete`. -/
def mdel {α : Type} (m : List (String × α)) (k : String) :
    List (String × α) :=
  m.filter (fun kv => ¬ (kv.1 = k))

/-- Model of the JS nullish-coalescing operator `a ?? b`: the left value is
kept unless it is missing (`undefined`) or `null`. -/
def jcoal (a b : Option JVal) : Option JVal :=
  match a with
  | none => b
  | some .null => b
  | some v => some v

/-- Model of `a ?? d` where `d` is a plain (non-optional) JS value. -/
def jvalOr (v : Option JVal) (d : JVal) : JVal :=
  match v with
  | none => d
  | some .null => d
  | some x => x

/-- Translation of `asRecord`: `typeof value === 'object' && value` — objects
and arrays qualify (an array is viewed as the object of its index keys plus
`length`), everything else gives `null`. -/
def asRecord : JVal → Option Obj
  | .obj fields => some fields
  | .arr elems =>
      some ((elems.enum.map (fun p => (toString p.1, p.2))) ++
        [("length", .num elems.length)])
  | _ => none

/-- Translation of `asString`: a non-empty string, else `null`. -/
def asString : JVal → Option String
  | .str s => if 0 < s.length then some s else none
  | _ => none

/-- Translation of `asBoolean`. -/
def asBoolean : JVal → Option Bool
  | .bool b => some b
  | _ => none

/-- Translation of `asNumber`; all modelled numbers are finite integers. -/
def asNumber : JVal → Option Int
  | .num n => some n
  | _ => none

mutual

/-- Model of `JSON.stringify` as used by `asText` (escaping inside strings is
not modelled; no translated property is sensitive to it). -/
def jstringify : JVal → String
  | .null => "null"
  | .bool b => if b then "true" else "false"
  | .num n => toString n
  | .str s => "\"" ++ s ++ "\""
  | .arr elems => "[" ++ jstringifyElems elems ++ "]"
  | .obj fields => "\x7b" ++ jstringifyFields fields ++ "\x7d"

def jstringifyElems : List JVal → String
  | [] => ""
  | [x] => jstringify x
  | x :: xs => jstringify x ++ "," ++ jstringifyElems xs

def jstringifyFields : List (String × JVal) → String
  | [] => ""
  | [kv] => "\"" ++ kv.1 ++ "\":" ++ jstringify kv.2
  | kv :: kvs => "\"" ++ kv.1 ++ "\":" ++ jstringify kv.2 ++ "," ++ jstringifyFields kvs

end

/-- Translation of `asText`: strings pass through (including the empty
string), numbers and booleans are `String(value)`-converted, `null` and
`undefined` give `null`, and other values are JSON-stringified. -/
def asText : JVal → Option String
  | .str s => some s
  | .num n => some (toString n)
  | .bool b => some (if b then "true" else "false")
  | .null => none
  | v => some (jstringify v)

/-- Lift of `asString` to possibly-missing values (`asString(x)` where `x`
may be `undefined`). -/
def asStringO (v : Option JVal) : Option String := v.bind asString

def asBooleanO (v : Option JVal) : Option Bool := v.bind asBoolean

def asNumberO (v : Option JVal) : Option Int := v.bind asNumber

def asTextO (v : Option JVal) : Option String := v.bind asText

def asRecordO (v : Option JVal) : Option Obj := v.bind asRecord

/-- JS truthiness of a possibly-missing value, as in `Boolean(x)` and
`if (x)`. -/
def jtruthy : Option JVal → Bool
  | none => false
  | some .null => false
  | some (.bool b) => b
  | some (.num n) => n != 0
  | some (.str s) => s != ""
  | some (.arr _) => true
  | some (.obj _) => true

def Obj.set (o : Obj) (k : String) (v : JVal) : Obj := mset o k v

/-- Model of the conditional-spread idiom `...(x !== null/undefined ? else)`. -/
def Obj.setIfSome (o : Obj) (k : String) (v : Option JVal) : Obj :=
  match v with
  | some x => o.set k x
  | none => o

/-- A string survives a truthiness test exactly when present and non-empty. -/
def truthyStr : Option String → Option JVal
  | some s => if s = "" then none else some (.str s)
  | none => none

/-- Model of the conditional-spread idiom `...(s ? else)` for a string `s`. -/
def Obj.setIfTruthy (o : Obj) (k : String) (v : Option String) : Obj :=
  o.setIfSome k (truthyStr v)

/-- Model of the object-spread `...src` of one object into another. -/
def Obj.spread (o : Obj) (src : Obj) : Obj :=
  src.foldl (fun acc kv => acc.set kv.1 kv.2) o

/-- Translation of the candidate-scanning loops in `extractThreadId` /
`extractTurnId`: first candidate that `asString` accepts. -/
def firstString : List (Option JVal) → Option String
  | [] => none
  | c :: rest =>
    match asStringO c with
    | some v => some v
    | none => firstString rest

/-- Translation of `extractItemId`. -/
def extractItemId (params : Obj) : Option String :=
  let direct := asStringO (jcoal (mget params "itemId")
    (jcoal (mget params "item_id") (mget params "id")))
  match direct with
  | some s => some s
  | none =>
    match asRecordO (mget params "item") with
    | some item =>
        asStringO (jcoal (mget item "id")
          (jcoal (mget item "itemId") (mget item "item_id")))
    | none => none

/-- Translation of `extractItem`: `asRecord(params.item) ?? params`. -/
def extractItem (params : Obj) : Obj :=
  (asRecordO (mget params "item")).getD params

/-- Model of JS `String.prototype.toLowerCase` as a character-by-character
map (kernel-reducible, unlike `String.toLower`). -/
def jsToLower (s : String) : String := String.mk (s.data.map Char.toLower)

/-- Translation of `normalizeItemType`: lower-case and strip the characters
matched by the regex class `[\s_-]`. -/
def normalizeItemType (value : Option JVal) : Option String :=
  match asStringO value with
  | none => none
  | some raw =>
      some (String.mk ((jsToLower raw).data.filter
        (fun c => !(c.isWhitespace || c == '_' || c == '-'))))

/-- Translation of `extractCommand`: a string passes through; an array is
filtered to its string elements and joined with spaces when non-empty. -/
def extractCommand (value : Option JVal) : Option String :=
  match value with
  | some (.str s) => some s
  | some (.arr elems) =>
      let parts := elems.filterMap (fun v => match v with
        | .str s => some s
        | _ => none)
      if parts.length > 0 then some (String.intercalate " " parts) else none
  | _ => none

/-- Translation of `extractChanges`: an array of change entries is keyed by
each entry's resolved path (later entries overwriting earlier ones), kept
only when non-empty; a plain record passes through; anything else is `null`. -/
def extractChanges (value : Option JVal) : Option Obj :=
  match value with
  | some (.arr entries) =>
      let changes := entries.foldl (fun acc entry =>
        match asRecord entry with
        | none => acc
        | some entryRecord =>
          match asStringO (jcoal (mget entryRecord "path")
              (jcoal (mget entryRecord "file")
                (jcoal (mget entryRecord "filePath") (mget entryRecord "file_path")))) with
          | some path => Obj.set acc path (.obj entryRecord)
          | none => acc) ([] : Obj)
      if changes.length > 0 then some changes else none
  | some v =>
      match asRecord v with
      | some record => some record
      | none => none
  | none => none

/-- Translation of `extractThreadId` with its ordered candidate list. -/
def extractThreadId (params : Obj) (item : Option Obj) : Option String :=
  let thread := asRecordO (mget params "thread")
  let turn := asRecordO (mget params "turn")
  let itemThread := item.bind (fun i => asRecordO (mget i "thread"))
  let turnThread := turn.bind (fun t => asRecordO (mget t "thread"))
  firstString [
    mget params "threadId",
    mget params "thread_id",
    thread.bind (fun t => mget t "id"),
    thread.bind (fun t => mget t "threadId"),
    thread.bind (fun t => mget t "thread_id"),
    mget params "sid",
    turn.bind (fun t => mget t "threadId"),
    turn.bind (fun t => mget t "thread_id"),
    turnThread.bind (fun t => mget t "id"),
    item.bind (fun i => mget i "threadId"),
    item.bind (fun i => mget i "thread_id"),
    itemThread.bind (fun t => mget t "id")]

/-- Translation of `extractTurnId` with its ordered candidate list. -/
def extractTurnId (params : Obj) (item : Option Obj) : Option String :=
  let turn := asRecordO (mget params "turn")
  let itemTurn := item.bind (fun i => asRecordO (mget i "turn"))
  firstString [
    mget params "turnId",
    mget params "turn_id",
    turn.bind (fun t => mget t "id"),
    turn.bind (fun t => mget t "turnId"),
    turn.bind (fun t => mget t "turn_id"),
    item.bind (fun i => mget i "turnId"),
    item.bind (fun i => mget i "turn_id"),
    itemTurn.bind (fun t => mget t "id")]

/-- Translation of `pickStatus`. -/
def pickStatus (params : Obj) (item : Option Obj) : Option String :=
  asStringO (jcoal (mget params "status") (item.bind (fun i => mget i "status")))

/-- Translation of `addStableFields`: conditionally writes the four trace
fields onto the event object. -/
def addStableFields (target : Obj) (params : Obj) (item : Option Obj)
    (itemId : Option String) : Obj :=
  let threadId := extractThreadId params item
  let turnId := extractTurnId params item
  let status := pickStatus params item
  let t1 := target.setIfTruthy "thread_id" threadId
  let t2 := t1.setIfTruthy "turn_id" turnId
  let t3 := t2.setIfTruthy "item_id" itemId
  t3.setIfTruthy "status" status

/-- State of `AppServerEventConverter`: the five per-item stream buffers and
the two metadata caches. -/
structure ConvState where
  agentMessageBuffers : List (String × String)
  reasoningBuffers : List (String × String)
  planBuffers : List (String × String)
  commandOutputBuffers : List (String × String)
  fileChangeOutputBuffers : List (String × String)
  commandMeta : List (String × Obj)
  fileChangeMeta : List (String × Obj)

/-- A freshly constructed converter: all maps empty. -/
def initConvState : ConvState := ⟨[], [], [], [], [], [], []⟩

/-- Translation of `reset()`: every buffer and metadata map is cleared. -/
def ConvState.reset (_st : ConvState) : ConvState := initConvState

/-- Translation of the `thread/started` / `thread/resumed` branch. -/
def handleThreadStarted (p : Obj) : List Obj :=
  let thread := (asRecordO (mget p "thread")).getD p
  match asStringO (jcoal (mget thread "threadId")
      (jcoal (mget thread "thread_id") (mget thread "id"))) with
  | some threadId => [[("type", .str "thread_started"), ("thread_id", .str threadId)]]
  | none => []

/-- Translation of the `turn/started` branch. -/
def handleTurnStarted (p : Obj) : List Obj :=
  let turn := (asRecordO (mget p "turn")).getD p
  let turnId := asStringO (jcoal (mget turn "turnId")
    (jcoal (mget turn "turn_id") (mget turn "id")))
  [addStableFields (Obj.setIfTruthy [("type", .str "task_started")] "turn_id" turnId)
    p none none]

/-- Translation of the `turn/completed` branch: the case-folded status picks
between `turn_aborted`, `task_failed` (with extracted error) and
`task_complete`. -/
def handleTurnCompleted (p : Obj) : List Obj :=
  let turn := (asRecordO (mget p "turn")).getD p
  let statusRaw := asStringO (jcoal (mget p "status") (mget turn "status"))
  let status := statusRaw.map jsToLower
  let turnId := asStringO (jcoal (mget turn "turnId")
    (jcoal (mget turn "turn_id") (mget turn "id")))
  let errorMessage := asStringO (jcoal (mget p "error")
    (jcoal (mget p "message") (mget p "reason")))
  if status = some "interrupted" ∨ status = some "cancelled" ∨ status = some "canceled" then
    [addStableFields (Obj.setIfTruthy [("type", .str "turn_aborted")] "turn_id" turnId)
      p none none]
  else if status = some "failed" ∨ status = some "error" then
    [addStableFields (Obj.setIfTruthy
       (Obj.setIfTruthy [("type", .str "task_failed")] "turn_id" turnId)
       "error" errorMessage) p none none]
  else
    [addStableFields (Obj.setIfTruthy [("type", .str "task_complete")] "turn_id" turnId)
      p none none]

/-- Translation of the `turn/diff/updated` branch. -/
def handleTurnDiffUpdated (p : Obj) : List Obj :=
  match asStringO (jcoal (mget p "diff")
      (jcoal (mget p "unified_diff") (mget p "unifiedDiff"))) with
  | some diff =>
      [addStableFields [("unified_diff", .str diff), ("type", .str "turn_diff")] p none none]
  | none => []

/-- Translation of the `turn/plan/updated` branch. -/
def handleTurnPlanUpdated (p : Obj) : List Obj :=
  let explanation := asStringO (mget p "explanation")
  let plan := match mget p "plan" with
    | some (.arr elems) => some elems
    | _ => none
  [addStableFields
    (Obj.setIfSome
      (Obj.setIfTruthy [("type", .str "turn_plan_updated")] "explanation" explanation)
      "plan" (plan.map .arr)) p none none]

/-- Translation of the `thread/tokenUsage/updated` branch. -/
def handleTokenUsage (p : Obj) : List Obj :=
  let info := (asRecordO (jcoal (mget p "tokenUsage")
    (jcoal (mget p "token_usage") (some (.obj p))))).getD []
  [addStableFields [("info", .obj info), ("type", .str "token_count")] p none none]

/-- Translation of the `error` branch: suppressed when `will_retry` is true,
otherwise one `task_failed` event with message, optional error-info object,
optional additional-details object and optional HTTP status code. -/
def handleErrorNotification (p : Obj) : List Obj :=
  let willRetry := (asBooleanO (jcoal (mget p "will_retry") (mget p "willRetry"))).getD false
  if willRetry then []
  else
    let errorRecord := asRecordO (mget p "error")
    let codexErrorInfo := asRecordO (jcoal (mget p "codexErrorInfo")
      (jcoal (mget p "codex_error_info")
        (jcoal (errorRecord.bind (fun r => mget r "codexErrorInfo"))
          (errorRecord.bind (fun r => mget r "codex_error_info")))))
    let additionalDetails := asRecordO (jcoal (mget p "additionalDetails")
      (jcoal (mget p "additional_details")
        (jcoal (errorRecord.bind (fun r => mget r "additionalDetails"))
          (errorRecord.bind (fun r => mget r "additional_details")))))
    let httpStatusCode := asNumberO (jcoal
      (codexErrorInfo.bind (fun r => mget r "httpStatusCode"))
      (jcoal (codexErrorInfo.bind (fun r => mget r "http_status_code"))
        (jcoal (mget p "httpStatusCode") (mget p "http_status_code"))))
    let message := ((asStringO (mget p "message")).orElse (fun _ =>
      (asStringO (errorRecord.bind (fun r => mget r "message"))).orElse (fun _ =>
        asStringO (mget p "reason")))).getD "Unknown app-server error"
    [addStableFields
      (Obj.setIfSome
        (Obj.setIfSome
          (Obj.setIfSome [("type", .str "task_failed"), ("error", .str message)]
            "codex_error_info" (codexErrorInfo.map .obj))
          "additional_details" (additionalDetails.map .obj))
        "http_status_code" (httpStatusCode.map .num)) p none none]

/-- Translation of the `item/agentMessage/delta` branch: buffer-only. -/
def handleAgentMessageDelta (st : ConvState) (p : Obj) : ConvState :=
  let itemId := extractItemId p
  let delta := asStringO (jcoal (mget p "delta")
    (jcoal (mget p "text") (mget p "message")))
  match itemId, delta with
  | some iid, some d =>
      let prev := (mget st.agentMessageBuffers iid).getD ""
      { st with agentMessageBuffers := mset st.agentMessageBuffers iid (prev ++ d) }
  | _, _ => st

/-- Translation of the `item/plan/delta` branch: buffers and emits an
`agent_plan_delta` event carrying the delta and the accumulated text. -/
def handlePlanDelta (st : ConvState) (p : Obj) : ConvState × List Obj :=
  let itemId := extractItemId p
  let delta := asStringO (jcoal (mget p "delta")
    (jcoal (mget p "text") (mget p "message")))
  match itemId, delta with
  | some iid, some d =>
      let prev := (mget st.planBuffers iid).getD ""
      let next := prev ++ d
      ({ st with planBuffers := mset st.planBuffers iid next },
       [addStableFields
         [("plan_text", .str next), ("delta", .str d),
          ("item_id", .str iid), ("type", .str "agent_plan_delta")]
         p none (some iid)])
  | _, _ => (st, [])

/-- Translation of the `item/reasoning/summaryTextDelta` /
`item/reasoning/textDelta` branch. -/
def handleReasoningDelta (st : ConvState) (method : String) (p : Obj) :
    ConvState × List Obj :=
  let itemId := (extractItemId p).getD "reasoning"
  let delta := asStringO (jcoal (mget p "delta")
    (jcoal (mget p "text") (mget p "message")))
  match delta with
  | some d =>
      let prev := (mget st.reasoningBuffers itemId).getD ""
      let summaryIndex := asNumberO (jcoal (mget p "summaryIndex") (mget p "summary_index"))
      let base : Obj :=
        [("item_id", .str itemId), ("delta", .str d), ("type", .str "agent_reasoning_delta")]
      let withStream := Obj.set base "reasoning_stream"
        (if method = "item/reasoning/summaryTextDelta" then .str "summary" else .str "raw")
      ({ st with reasoningBuffers := mset st.reasoningBuffers itemId (prev ++ d) },
       [addStableFields (Obj.setIfSome withStream "summary_index" (summaryIndex.map .num))
         p none (some itemId)])
  | none => (st, [])

/-- Translation of the `item/commandExecution/outputDelta` branch:
buffer-only. -/
def handleCommandOutputDelta (st : ConvState) (p : Obj) : ConvState :=
  let itemId := extractItemId p
  let delta := asTextO (jcoal (mget p "delta")
    (jcoal (mget p "text") (jcoal (mget p "output") (mget p "stdout"))))
  match itemId, delta with
  | some iid, some d =>
      if d = "" then st
      else
        let prev := (mget st.commandOutputBuffers iid).getD ""
        { st with commandOutputBuffers := mset st.commandOutputBuffers iid (prev ++ d) }
  | _, _ => st

/-- Translation of the `item/fileChange/outputDelta` branch: buffers and
emits a `patch_apply_delta` event. -/
def handleFileChangeOutputDelta (st : ConvState) (p : Obj) : ConvState × List Obj :=
  let itemId := extractItemId p
  let delta := asTextO (jcoal (mget p "delta")
    (jcoal (mget p "text")
      (jcoal (mget p "output") (jcoal (mget p "stdout") (mget p "response")))))
  match itemId, delta with
  | some iid, some d =>
      if d = "" then (st, [])
      else
        let prev := (mget st.fileChangeOutputBuffers iid).getD ""
        ({ st with fileChangeOutputBuffers := mset st.fileChangeOutputBuffers iid (prev ++ d) },
         [addStableFields
           [("delta", .str d), ("item_id", .str iid), ("type", .str "patch_apply_delta")]
           p none (some iid)])
  | _, _ => (st, [])

/-- Translation of the `agentmessage` item handling: only completion emits,
resolving text from explicit fields or the accumulated buffer, then the
buffer is deleted. -/
def itemAgentMessage (st : ConvState) (method : String) (p item : Obj)
    (iid : String) (status : Option String) : ConvState × List Obj :=
  if method = "item/completed" then
    let text := (asStringO (jcoal (mget item "text")
      (jcoal (mget item "message") (mget item "content")))).orElse
      (fun _ => mget st.agentMessageBuffers iid)
    let events := match text with
      | some t =>
          if t = "" then []
          else
            [addStableFields
              (Obj.setIfTruthy
                [("item_id", .str iid), ("message", .str t), ("type", .str "agent_message")]
                "status" status) p (some item) (some iid)]
      | none => []
    ({ st with agentMessageBuffers := mdel st.agentMessageBuffers iid }, events)
  else (st, [])

/-- Translation of the `reasoning` item handling: like `agentmessage` but
with the reasoning buffer and an `agent_reasoning` event. -/
def itemReasoning (st : ConvState) (method : String) (p item : Obj)
    (iid : String) (status : Option String) : ConvState × List Obj :=
  if method = "item/completed" then
    let text := (asStringO (jcoal (mget item "text")
      (jcoal (mget item "message") (mget item "content")))).orElse
      (fun _ => mget st.reasoningBuffers iid)
    let events := match text with
      | some t =>
          if t = "" then []
          else
            [addStableFields
              (Obj.setIfTruthy
                [("item_id", .str iid), ("text", .str t), ("type", .str "agent_reasoning")]
                "status" status) p (some item) (some iid)]
      | none => []
    ({ st with reasoningBuffers := mdel st.reasoningBuffers iid }, events)
  else (st, [])

/-- Translation of the `plan` item handling: start seeds the buffer and
emits `plan_item_started`; completion emits `plan_item_completed` with text
from explicit fields or the buffer, then deletes the buffer. -/
def itemPlan (st : ConvState) (method : String) (p item : Obj)
    (iid : String) (status : Option String) : ConvState × List Obj :=
  if method = "item/started" then
    let text := asStringO (jcoal (mget item "text")
      (jcoal (mget item "message") (mget item "content")))
    let st' := match text with
      | some t => { st with planBuffers := mset st.planBuffers iid t }
      | none => st
    (st',
     [addStableFields
       (Obj.setIfTruthy
         (Obj.setIfTruthy
           [("item_id", .str iid), ("call_id", .str iid), ("type", .str "plan_item_started")]
           "text" text)
         "status" status) p (some item) (some iid)])
  else if method = "item/completed" then
    let text := (asStringO (jcoal (mget item "text")
      (jcoal (mget item "message") (mget item "content")))).orElse
      (fun _ => mget st.planBuffers iid)
    ({ st with planBuffers := mdel st.planBuffers iid },
     [addStableFields
       (Obj.setIfTruthy
         (Obj.setIfTruthy
           [("item_id", .str iid), ("call_id", .str iid), ("type", .str "plan_item_completed")]
           "text" text)
         "status" status) p (some item) (some iid)])
  else (st, [])

/-- Translation of the `commandexecution` item handling: start captures the
metadata snapshot and emits `exec_command_begin`; completion merges the saved
metadata with resolved output (falling back to the output buffer), stderr,
error and exit code into `exec_command_end`, then deletes metadata and
buffer. -/
def itemCommandExecution (st : ConvState) (method : String) (p item : Obj)
    (iid : String) (status : Option String)
    (threadId turnId : Option String) : ConvState × List Obj :=
  if method = "item/started" then
    let command := extractCommand (jcoal (mget item "command")
      (jcoal (mget item "cmd") (mget item "args")))
    let cwd := asStringO (jcoal (mget item "cwd")
      (jcoal (mget item "workingDirectory") (mget item "working_directory")))
    let autoApproved := asBooleanO (jcoal (mget item "autoApproved") (mget item "auto_approved"))
    let meta :=
      (Obj.setIfTruthy ([] : Obj) "command" command
        |>.setIfTruthy "cwd" cwd
        |>.setIfSome "auto_approved" (autoApproved.map .bool)
        |>.setIfTruthy "thread_id" threadId
        |>.setIfTruthy "turn_id" turnId)
    ({ st with commandMeta := mset st.commandMeta iid meta },
     [addStableFields
       (Obj.setIfTruthy
         (Obj.spread
           [("item_id", .str iid), ("call_id", .str iid), ("type", .str "exec_command_begin")]
           meta)
         "status" status) p (some item) (some iid)])
  else if method = "item/completed" then
    let meta := (mget st.commandMeta iid).getD []
    let output := (asTextO (jcoal (mget item "output")
      (jcoal (mget item "result") (mget item "stdout")))).orElse
      (fun _ => mget st.commandOutputBuffers iid)
    let stderr := asTextO (mget item "stderr")
    let error := asTextO (mget item "error")
    let exitCode := asNumberO (jcoal (mget item "exitCode")
      (jcoal (mget item "exit_code") (mget item "exitcode")))
    ({ st with commandMeta := mdel st.commandMeta iid,
               commandOutputBuffers := mdel st.commandOutputBuffers iid },
     [addStableFields
       (Obj.setIfTruthy
         (Obj.setIfSome
           (Obj.setIfTruthy
             (Obj.setIfTruthy
               (Obj.setIfTruthy
                 (Obj.spread
                   [("item_id", .str iid), ("call_id", .str iid),
                    ("type", .str "exec_command_end")]
                   meta)
                 "output" output)
               "stderr" stderr)
             "error" error)
           "exit_code" (exitCode.map .num))
         "status" status) p (some item) (some iid)])
  else (st, [])

/-- Strict-equality test `item.status === 'completed'` from the fileChange
completion branch. -/
def statusStrictCompleted (item : Obj) : Bool :=
  match mget item "status" with
  | some (.str s) => s == "completed"
  | _ => false

/-- Translation of the `filechange` item handling: start captures changes
and approval metadata and emits `patch_apply_begin`; completion merges the
saved metadata with resolved stdout (falling back to the buffer), stderr and
a boolean `success` derived from `success ?? ok ?? applied ?? status ===
'completed'` into `patch_apply_end`, then deletes metadata and buffer. -/
def itemFileChange (st : ConvState) (method : String) (p item : Obj)
    (iid : String) (status : Option String)
    (threadId turnId : Option String) : ConvState × List Obj :=
  if method = "item/started" then
    let changes := extractChanges (jcoal (mget item "changes")
      (jcoal (mget item "change") (mget item "diff")))
    let autoApproved := asBooleanO (jcoal (mget item "autoApproved") (mget item "auto_approved"))
    let meta :=
      (Obj.setIfSome ([] : Obj) "changes" (changes.map .obj)
        |>.setIfSome "auto_approved" (autoApproved.map .bool)
        |>.setIfTruthy "thread_id" threadId
        |>.setIfTruthy "turn_id" turnId)
    ({ st with fileChangeMeta := mset st.fileChangeMeta iid meta },
     [addStableFields
       (Obj.setIfTruthy
         (Obj.spread
           [("item_id", .str iid), ("call_id", .str iid), ("type", .str "patch_apply_begin")]
           meta)
         "status" status) p (some item) (some iid)])
  else if method = "item/completed" then
    let meta := (mget st.fileChangeMeta iid).getD []
    let stdout := (asTextO (jcoal (mget item "stdout") (mget item "output"))).orElse
      (fun _ => mget st.fileChangeOutputBuffers iid)
    let stderr := asTextO (mget item "stderr")
    let success := asBooleanO (jcoal (mget item "success")
      (jcoal (mget item "ok")
        (jcoal (mget item "applied") (some (.bool (statusStrictCompleted item))))))
    ({ st with fileChangeMeta := mdel st.fileChangeMeta iid,
               fileChangeOutputBuffers := mdel st.fileChangeOutputBuffers iid },
     [addStableFields
       (Obj.setIfTruthy
         (Obj.set
           (Obj.setIfTruthy
             (Obj.setIfTruthy
               (Obj.spread
                 [("item_id", .str iid), ("call_id", .str iid),
                  ("type", .str "patch_apply_end")]
                 meta)
               "stdout" stdout)
             "stderr" stderr)
           "success" (.bool (success.getD false)))
         "status" status) p (some item) (some iid)])
  else (st, [])

/-- Translation of the `mcptoolcall` item handling. -/
def itemMcpToolCall (method : String) (p item : Obj) (iid : String)
    (status : Option String) : List Obj :=
  let server := asStringO (mget item "server")
  let tool := asStringO (mget item "tool")
  let name := match server, tool with
    | some s, some t => "mcp__" ++ s ++ "__" ++ t
    | _, _ => tool.getD "mcp_tool_call"
  if method = "item/started" then
    [addStableFields
      (Obj.setIfTruthy
        [("input", jvalOr (jcoal (mget item "arguments") (mget item "input")) .null),
         ("name", .str name), ("item_id", .str iid), ("call_id", .str iid),
         ("type", .str "mcp_tool_call_begin")]
        "status" status) p (some item) (some iid)]
  else
    [addStableFields
      (Obj.setIfTruthy
        [("error", jvalOr (mget item "error") .null),
         ("output", jvalOr (jcoal (mget item "result") (mget item "output")) .null),
         ("name", .str name), ("item_id", .str iid), ("call_id", .str iid),
         ("type", .str "mcp_tool_call_end")]
        "status" status) p (some item) (some iid)]

/-- Translation of the `collabtoolcall` item handling. -/
def itemCollabToolCall (method : String) (p item : Obj) (iid : String)
    (status : Option String) : List Obj :=
  let tool := (asStringO (mget item "tool")).getD "collab_tool_call"
  if method = "item/started" then
    [addStableFields
      (Obj.setIfTruthy
        [("input", .obj
           [("sender_thread_id",
             jvalOr (jcoal (mget item "senderThreadId") (mget item "sender_thread_id")) .null),
            ("receiver_thread_id",
             jvalOr (jcoal (mget item "receiverThreadId") (mget item "receiver_thread_id")) .null),
            ("new_thread_id",
             jvalOr (jcoal (mget item "newThreadId") (mget item "new_thread_id")) .null),
            ("prompt", jvalOr (mget item "prompt") .null),
            ("agent_status",
             jvalOr (jcoal (mget item "agentStatus") (mget item "agent_status")) .null)]),
         ("name", .str tool), ("item_id", .str iid), ("call_id", .str iid),
         ("type", .str "collab_tool_call_begin")]
        "status" status) p (some item) (some iid)]
  else
    [addStableFields
      (Obj.setIfTruthy
        [("error", jvalOr (mget item "error") .null),
         ("output", jvalOr (jcoal (mget item "result") (mget item "output")) .null),
         ("name", .str tool), ("item_id", .str iid), ("call_id", .str iid),
         ("type", .str "collab_tool_call_end")]
        "status" status) p (some item) (some iid)]

/-- Translation of the `websearch` item handling. -/
def itemWebSearch (method : String) (p item : Obj) (iid : String)
    (status : Option String) : List Obj :=
  if method = "item/started" then
    [addStableFields
      (Obj.setIfTruthy
        [("input", .obj
           [("query", jvalOr (mget item "query") .null),
            ("action", jvalOr (mget item "action") .null)]),
         ("name", .str "web_search"), ("item_id", .str iid), ("call_id", .str iid),
         ("type", .str "web_search_begin")]
        "status" status) p (some item) (some iid)]
  else
    [addStableFields
      (Obj.setIfTruthy
        [("error", jvalOr (mget item "error") .null),
         ("output", jvalOr (jcoal (mget item "result") (mget item "output")) .null),
         ("name", .str "web_search"), ("item_id", .str iid), ("call_id", .str iid),
         ("type", .str "web_search_end")]
        "status" status) p (some item) (some iid)]

/-- Translation of the `imageview` item handling. -/
def itemImageView (method : String) (p item : Obj) (iid : String)
    (status : Option String) : List Obj :=
  if method = "item/started" then
    [addStableFields
      (Obj.setIfTruthy
        [("input", .obj
           [("path", ((asStringO (mget item "path")).map JVal.str).getD .null)]),
         ("name", .str "image_view"), ("item_id", .str iid), ("call_id", .str iid),
         ("type", .str "image_view_begin")]
        "status" status) p (some item) (some iid)]
  else
    [addStableFields
      (Obj.setIfTruthy
        [("error", jvalOr (mget item "error") .null),
         ("output", jvalOr (jcoal (mget item "result") (mget item "output")) .null),
         ("name", .str "image_view"), ("item_id", .str iid), ("call_id", .str iid),
         ("type", .str "image_view_end")]
        "status" status) p (some item) (some iid)]

/-- Translation of the `enteredreviewmode` / `exitedreviewmode` handling:
one event per notification, regardless of started/completed. -/
def itemReviewMode (eventType : String) (p item : Obj) (iid : String)
    (status : Option String) : List Obj :=
  [addStableFields
    (Obj.setIfTruthy
      [("review", jvalOr (mget item "review") .null),
       ("item_id", .str iid), ("call_id", .str iid), ("type", .str eventType)]
      "status" status) p (some item) (some iid)]

/-- Translation of the `contextcompaction` handling. -/
def itemContextCompaction (method : String) (p item : Obj) (iid : String)
    (status : Option String) : List Obj :=
  [addStableFields
    (Obj.setIfTruthy
      [("item_id", .str iid), ("call_id", .str iid),
       ("type", .str (if method = "item/started"
         then "context_compaction_started" else "context_compaction_completed"))]
      "status" status) p (some item) (some iid)]

/-- Translation of the `item/started` / `item/completed` dispatch: resolve
the normalized item type and item id (emitting nothing when either is
missing or the normalized type is empty), then dispatch per type. -/
def handleItemNotification (st : ConvState) (method : String) (p : Obj) :
    ConvState × List Obj :=
  let item := extractItem p
  let itemType := normalizeItemType (jcoal (mget item "type")
    (jcoal (mget item "itemType") (mget item "kind")))
  let itemId := (extractItemId p).orElse (fun _ =>
    asStringO (jcoal (mget item "id") (jcoal (mget item "itemId") (mget item "item_id"))))
  let status := asStringO (mget item "status")
  let threadId := extractThreadId p (some item)
  let turnId := extractTurnId p (some item)
  match itemType, itemId with
  | some t, some iid =>
    if t = "" then (st, [])
    else if t = "agentmessage" then itemAgentMessage st method p item iid status
    else if t = "reasoning" then itemReasoning st method p item iid status
    else if t = "plan" then itemPlan st method p item iid status
    else if t = "commandexecution" then
      itemCommandExecution st method p item iid status threadId turnId
    else if t = "filechange" then
      itemFileChange st method p item iid status threadId turnId
    else if t = "mcptoolcall" then (st, itemMcpToolCall method p item iid status)
    else if t = "collabtoolcall" then (st, itemCollabToolCall method p item iid status)
    else if t = "websearch" then (st, itemWebSearch method p item iid status)
    else if t = "imageview" then (st, itemImageView method p item iid status)
    else if t = "enteredreviewmode" then
      (st, itemReviewMode "review_mode_entered" p item iid status)
    else if t = "exitedreviewmode" then
      (st, itemReviewMode "review_mode_exited" p item iid status)
    else if t = "contextcompaction" then
      (st, itemContextCompaction method p item iid status)
    else (st, [])
  | _, _ => (st, [])

/-- Translation of `AppServerEventConverter.handleNotification`: dispatch on
the notification method, returning the updated converter state and the list
of canonical events; unhandled methods produce no events. -/
def handleNotification (st : ConvState) (method : String) (params : JVal) :
    ConvState × List Obj :=
  let p := (asRecord params).getD []
  if method = "thread/started" ∨ method = "thread/resumed" then (st, handleThreadStarted p)
  else if method = "turn/started" then (st, handleTurnStarted p)
  else if method = "turn/completed" then (st, handleTurnCompleted p)
  else if method = "turn/diff/updated" then (st, handleTurnDiffUpdated p)
  else if method = "turn/plan/updated" then (st, handleTurnPlanUpdated p)
  else if method = "thread/tokenUsage/updated" then (st, handleTokenUsage p)
  else if method = "error" then (st, handleErrorNotification p)
  else if method = "item/agentMessage/delta" then (handleAgentMessageDelta st p, [])
  else if method = "item/plan/delta" then handlePlanDelta st p
  else if method = "item/reasoning/summaryTextDelta" ∨ method = "item/reasoning/textDelta" then
    handleReasoningDelta st method p
  else if method = "item/reasoning/summaryPartAdded" then
    (st, [addStableFields [("type", .str "agent_reasoning_section_break")] p none none])
  else if method = "item/commandExecution/outputDelta" then (handleCommandOutputDelta st p, [])
  else if method = "item/fileChange/outputDelta" then handleFileChangeOutputDelta st p
  else if method = "item/started" ∨ method = "item/completed" then
    handleItemNotification st method p
  else (st, [])

/-- Messages the launcher sends through `session.sendCodexMessage`; the
random `id` field is omitted (nothing observes it). -/
inductive OutMsg where
  | toolCall (name : String) (callId : String) (input : JVal) (trace : Obj)
  | toolCallResult (callId : String) (output : JVal) (isError : Bool) (trace : Obj)
  | chatMessage (message : String) (trace : Obj)
  | passthrough (msg : Obj)

/-- State owned by `runMainLoop` that `handleCodexEvent` reads or writes:
the plan-call map, the current thread/turn ids, the turn-in-flight flag,
and a counter standing in for `randomUUID()`. -/
structure EmitterState where
  planCallIdByTurn : List (String × String)
  currentThreadId : Option String
  currentTurnId : Option String
  turnInFlight : Bool
  uuidCounter : Nat

def initEmitterState : EmitterState := ⟨[], none, none, false, 0⟩

/-- Translation of `toTraceFields`. -/
def toTraceFields (source : Obj) : Obj :=
  let threadId := asStringO (jcoal (mget source "thread_id") (mget source "threadId"))
  let turnId := asStringO (jcoal (mget source "turn_id") (mget source "turnId"))
  let itemId := asStringO (jcoal (mget source "item_id") (mget source "itemId"))
  let status := asStringO (mget source "status")
  (Obj.setIfTruthy ([] : Obj) "thread_id" threadId
    |>.setIfTruthy "turn_id" turnId
    |>.setIfTruthy "item_id" itemId
    |>.setIfTruthy "status" status)

/-- Translation of `stripEnvelopeFields`: drop `type`, `call_id`, `callId`. -/
def stripEnvelopeFields (source : Obj) : Obj :=
  source.filter (fun kv => ¬ (kv.1 = "type" ∨ kv.1 = "call_id" ∨ kv.1 = "callId"))

/-- Deterministic stand-in for `randomUUID()`. -/
def freshUuid (n : Nat) : String := "uuid-" ++ toString n

/-- Translation of `extractCallId`: the explicit call id, else the item id,
else a freshly generated id prefixed by the event-category tag; also returns
the updated uuid counter. -/
def extractCallId (source : Obj) (pfx : String) (counter : Nat) : String × Nat :=
  match asStringO (jcoal (mget source "call_id")
      (jcoal (mget source "callId")
        (jcoal (mget source "item_id") (mget source "itemId")))) with
  | some s => (s, counter)
  | none => (pfx ++ ":" ++ freshUuid counter, counter + 1)

/-- Translation of `handleCodexEvent` from `codexRemoteLauncher.ts` in
app-server mode, restricted to its effects on the modelled state and to the
messages sent via `session.sendCodexMessage` (tool calls, tool results, chat
messages and pass-throughs); forwarding to the message buffer, the reasoning
processor, the diff processor and the ready signal is outside the model. -/
def handleCodexEvent (st0 : EmitterState) (msg : Obj) : EmitterState × List OutMsg :=
  match asStringO (mget msg "type") with
  | none => (st0, [])
  | some msgType =>
    if msgType = "thread_started" then
      match asStringO (jcoal (mget msg "thread_id") (mget msg "threadId")) with
      | some threadId => ({ st0 with currentThreadId := some threadId }, [])
      | none => (st0, [])
    else
      let st1 :=
        if msgType = "task_started" then
          match asStringO (jcoal (mget msg "turn_id") (mget msg "turnId")) with
          | some turnId => { st0 with currentTurnId := some turnId }
          | none => st0
        else st0
      let st2 :=
        if msgType = "task_complete" ∨ msgType = "turn_aborted" ∨ msgType = "task_failed" then
          { st1 with currentTurnId := none }
        else st1
      let st3 := if msgType = "task_started" then { st2 with turnInFlight := true } else st2
      let (st4, outTerminal) :=
        if msgType = "task_complete" ∨ msgType = "turn_aborted" ∨ msgType = "task_failed" then
          let stA := { st3 with turnInFlight := false }
          match asStringO (jcoal (mget msg "turn_id") (mget msg "turnId")) with
          | some turnId =>
            match mget stA.planCallIdByTurn turnId with
            | some planCallId =>
                ({ stA with planCallIdByTurn := mdel stA.planCallIdByTurn turnId },
                 [OutMsg.toolCallResult planCallId
                   (.obj [("status", .str msgType),
                          ("error", ((asStringO (mget msg "error")).map JVal.str).getD .null)])
                   (msgType == "task_failed") (toTraceFields msg)])
            | none => (stA, [])
          | none => (stA, [])
        else (st3, [])
      let outMessage :=
        if msgType = "agent_message" then
          match asStringO (mget msg "message") with
          | some message => [OutMsg.chatMessage message (toTraceFields msg)]
          | none => []
        else []
      let (st5, outPlanUpd) :=
        if msgType = "turn_plan_updated" then
          let (turnId, stB) :=
            match asStringO (jcoal (mget msg "turn_id") (mget msg "turnId")) with
            | some t => (t, st4)
            | none => (freshUuid st4.uuidCounter, { st4 with uuidCounter := st4.uuidCounter + 1 })
          let callId := "turn-plan:" ++ turnId
          ({ stB with planCallIdByTurn := mset stB.planCallIdByTurn turnId callId },
           [OutMsg.toolCall "ExitPlanMode" callId
             (.obj [("explanation", jvalOr (mget msg "explanation") .null),
                    ("plan", jvalOr (mget msg "plan") (.arr [])),
                    ("updated_from", .str "turn/plan/updated")])
             (toTraceFields msg)])
        else (st4, [])
      let (st6, outPlanDelta) :=
        if msgType = "agent_plan_delta" then
          let (callId, ctr) := extractCallId msg "plan-delta" st5.uuidCounter
          let stB := { st5 with uuidCounter := ctr }
          let stC :=
            match asStringO (jcoal (mget msg "turn_id") (mget msg "turnId")) with
            | some turnId =>
              if (mget stB.planCallIdByTurn turnId).isNone then
                { stB with planCallIdByTurn := mset stB.planCallIdByTurn turnId callId }
              else stB
            | none => stB
          (stC,
           [OutMsg.toolCall "ExitPlanMode" callId
             (.obj [("plan", jvalOr (jcoal (mget msg "plan_text") (mget msg "delta")) (.str "")),
                    ("delta", jvalOr (mget msg "delta") (.str "")),
                    ("updated_from", .str "item/plan/delta")])
             (toTraceFields msg)])
        else (st5, [])
      let (st7, outPlanStart) :=
        if msgType = "plan_item_started" then
          let (callId, ctr) := extractCallId msg "plan-item" st6.uuidCounter
          ({ st6 with uuidCounter := ctr },
           [OutMsg.toolCall "ExitPlanMode" callId
             (.obj [("plan", jvalOr (mget msg "text") (.str "")),
                    ("updated_from", .str "item/started(plan)")])
             (toTraceFields msg)])
        else (st6, [])
      let (st8, outPlanDone) :=
        if msgType = "plan_item_completed" then
          let (callId, ctr) := extractCallId msg "plan-item" st7.uuidCounter
          ({ st7 with uuidCounter := ctr },
           [OutMsg.toolCallResult callId
             (.obj [("plan", jvalOr (mget msg "text") (.str "")),
                    ("status", jvalOr (mget msg "status") (.str "completed"))])
             false (toTraceFields msg)])
        else (st7, [])
      let (st9, outExec) :=
        if msgType = "exec_command_begin" ∨ msgType = "exec_approval_request" then
          let (callId, ctr) := extractCallId msg "exec" st8.uuidCounter
          ({ st8 with uuidCounter := ctr },
           [OutMsg.toolCall "CodexBash" callId (.obj (stripEnvelopeFields msg))
             (toTraceFields msg)])
        else if msgType = "exec_command_end" then
          let (callId, ctr) := extractCallId msg "exec" st8.uuidCounter
          ({ st8 with uuidCounter := ctr },
           [OutMsg.toolCallResult callId (.obj (stripEnvelopeFields msg))
             (jtruthy (mget msg "error")) (toTraceFields msg)])
        else (st8, [])
      let outToken := if msgType = "token_count" then [OutMsg.passthrough msg] else []
      let (st10, outPatch) :=
        if msgType = "patch_apply_begin" then
          let (callId, ctr) := extractCallId msg "patch" st9.uuidCounter
          ({ st9 with uuidCounter := ctr },
           [OutMsg.toolCall "CodexPatch" callId (.obj (stripEnvelopeFields msg))
             (toTraceFields msg)])
        else if msgType = "patch_apply_delta" then
          let (callId, ctr) := extractCallId msg "patch" st9.uuidCounter
          ({ st9 with uuidCounter := ctr },
           [OutMsg.toolCallResult callId
             (.obj [("stream", .bool true),
                    ("delta", jvalOr (mget msg "delta") (.str "")),
                    ("status", jvalOr (mget msg "status") (.str "in_progress"))])
             false (toTraceFields msg)])
        else if msgType = "patch_apply_end" then
          let (callId, ctr) := extractCallId msg "patch" st9.uuidCounter
          ({ st9 with uuidCounter := ctr },
           [OutMsg.toolCallResult callId (.obj (stripEnvelopeFields msg))
             (!(jtruthy (mget msg "success"))) (toTraceFields msg)])
        else (st9, [])
      let (st11, outMcp) :=
        if msgType = "mcp_tool_call_begin" then
          let (callId, ctr) := extractCallId msg "mcp" st10.uuidCounter
          let toolName := (asStringO (mget msg "name")).getD "mcp_tool_call"
          ({ st10 with uuidCounter := ctr },
           [OutMsg.toolCall toolName callId
             (jvalOr (mget msg "input") (.obj (stripEnvelopeFields msg)))
             (toTraceFields msg)])
        else if msgType = "mcp_tool_call_end" then
          let (callId, ctr) := extractCallId msg "mcp" st10.uuidCounter
          ({ st10 with uuidCounter := ctr },
           [OutMsg.toolCallResult callId
             (jvalOr (mget msg "output") (.obj [("error", jvalOr (mget msg "error") .null)]))
             (jtruthy (mget msg "error")) (toTraceFields msg)])
        else (st10, [])
      let (st12, outCollab) :=
        if msgType = "collab_tool_call_begin" then
          let (callId, ctr) := extractCallId msg "collab" st11.uuidCounter
          let toolName := (asStringO (mget msg "name")).getD "collab_tool_call"
          ({ st11 with uuidCounter := ctr },
           [OutMsg.toolCall toolName callId
             (jvalOr (mget msg "input") (.obj (stripEnvelopeFields msg)))
             (toTraceFields msg)])
        else if msgType = "collab_tool_call_end" then
          let (callId, ctr) := extractCallId msg "collab" st11.uuidCounter
          ({ st11 with uuidCounter := ctr },
           [OutMsg.toolCallResult callId
             (jvalOr (mget msg "output") (.obj [("error", jvalOr (mget msg "error") .null)]))
             (jtruthy (mget msg "error")) (toTraceFields msg)])
        else (st11, [])
      let (st13, outWeb) :=
        if msgType = "web_search_begin" then
          let (callId, ctr) := extractCallId msg "web-search" st12.uuidCounter
          ({ st12 with uuidCounter := ctr },
           [OutMsg.toolCall "web_search" callId
             (jvalOr (mget msg "input") (.obj (stripEnvelopeFields msg)))
             (toTraceFields msg)])
        else if msgType = "web_search_end" then
          let (callId, ctr) := extractCallId msg "web-search" st12.uuidCounter
          ({ st12 with uuidCounter := ctr },
           [OutMsg.toolCallResult callId
             (jvalOr (mget msg "output") (.obj [("error", jvalOr (mget msg "error") .null)]))
             (jtruthy (mget msg "error")) (toTraceFields msg)])
        else (st12, [])
      let (st14, outImage) :=
        if msgType = "image_view_begin" then
          let (callId, ctr) := extractCallId msg "image-view" st13.uuidCounter
          ({ st13 with uuidCounter := ctr },
           [OutMsg.toolCall "image_view" callId
             (jvalOr (mget msg "input") (.obj (stripEnvelopeFields msg)))
             (toTraceFields msg)])
        else if msgType = "image_view_end" then
          let (callId, ctr) := extractCallId msg "image-view" st13.uuidCounter
          ({ st13 with uuidCounter := ctr },
           [OutMsg.toolCallResult callId
             (jvalOr (mget msg "output") (.obj [("error", jvalOr (mget msg "error") .null)]))
             (jtruthy (mget msg "error")) (toTraceFields msg)])
        else (st13, [])
      let (st15, outReview) :=
        if msgType = "review_mode_entered" then
          let (callId, ctr) := extractCallId msg "review" st14.uuidCounter
          ({ st14 with uuidCounter := ctr },
           [OutMsg.toolCall "review_mode" callId
             (.obj [("review", jvalOr (mget msg "review") .null)]) (toTraceFields msg)])
        else if msgType = "review_mode_exited" then
          let (callId, ctr) := extractCallId msg "review" st14.uuidCounter
          ({ st14 with uuidCounter := ctr },
           [OutMsg.toolCallResult callId
             (.obj [("review", jvalOr (mget msg "review") .null)]) false (toTraceFields msg)])
        else (st14, [])
      let (st16, outCompaction) :=
        if msgType = "context_compaction_started" then
          let (callId, ctr) := extractCallId msg "context-compaction" st15.uuidCounter
          ({ st15 with uuidCounter := ctr },
           [OutMsg.toolCall "context_compaction" callId
             (.obj [("status", .str "started")]) (toTraceFields msg)])
        else if msgType = "context_compaction_completed" then
          let (callId, ctr) := extractCallId msg "context-compaction" st15.uuidCounter
          ({ st15 with uuidCounter := ctr },
           [OutMsg.toolCallResult callId
             (.obj [("status", .str "completed")]) false (toTraceFields msg)])
        else (st15, [])
      let outFailed := if msgType = "task_failed" then [OutMsg.passthrough msg] else []
      (st16,
       outTerminal ++ outMessage ++ outPlanUpd ++ outPlanDelta ++ outPlanStart ++
       outPlanDone ++ outExec ++ outToken ++ outPatch ++ outMcp ++ outCollab ++
       outWeb ++ outImage ++ outReview ++ outCompaction ++ outFailed)

/-- The call id carried by a tool-call or tool-call-result message. -/
def OutMsg.callIdOf : OutMsg → Option String
  | .toolCall _ c _ _ => some c
  | .toolCallResult c _ _ _ => some c
  | _ => none

/-- Number of tool-call (begin) messages carrying the given call id. -/
def countToolCalls (ms : List OutMsg) (c : String) : Nat :=
  (ms.filter (fun m => match m with
    | .toolCall _ cid _ _ => cid == c
    | _ => false)).length

/-- Number of tool-call-result (end) messages carrying the given call id. -/
def countToolResults (ms : List OutMsg) (c : String) : Nat :=
  (ms.filter (fun m => match m with
    | .toolCallResult cid _ _ _ => cid == c
    | _ => false)).length

/-- Concatenation of a list of string fragments (the "whole string" whose
splittings delta associativity quantifies over). -/
def concatAll : List String → String
  | [] => ""
  | f :: fs => f ++ concatAll fs

/-- The effect of one `item/agentMessage/delta` notification on the message
buffer for `id`: append the fragment unless it is empty. -/
def bumpAgentBuffer (st : ConvState) (id f : String) : ConvState :=
  if f = "" then st
  else { st with agentMessageBuffers := mset st.agentMessageBuffers id ((mget st.agentMessageBuffers id).getD "" ++ f) }

/-- A value that is present and neither `null` nor `undefined` (used by the
claim-side success derivation below). -/
def jnn : Option JVal → Option JVal
  | some .null => none
  | v => v

/-- Success value of a `patch_apply_end` event as the claim describes it
(claim-side definition, to be compared with the translated code): the first
non-null, non-undefined value among the item's `success`, `ok` and `applied`
fields when that value is a boolean; `false` when that first value exists
but is not a boolean; and, when no such value exists, `true` exactly when
the item's `status` string equals "completed". -/
def claimPatchSuccess (item : Obj) : Bool :=
  match (jnn (mget item "success")).orElse (fun _ =>
    (jnn (mget item "ok")).orElse (fun _ => jnn (mget item "applied"))) with
  | some (.bool b) => b
  | some _ => false
  | none =>
    match mget item "status" with
    | some (.str s) => s == "completed"
    | _ => false

/-- Simp lemmas on the association-list model used throughout the proofs. -/
@[simp]
theorem mget_nil {α : Type} (k : String) : mget ([] : List (String × α)) k = none := rfl

@[simp]
theorem mget_cons {α : Type} (k' k : String) (v : α) (m : List (String × α)) :
    mget ((k', v) :: m) k = if k' = k then some v else mget m k := rfl

@[simp]
theorem mget_mset_self {α : Type} (m : List (String × α)) (k : String) (v : α) :
    mget (mset m k v) k = some v := by
  simp [mset]

theorem mget_mset_ne {α : Type} (m : List (String × α)) (k k' : String) (v : α)
    (h : ¬ (k = k')) : mget (mset m k v) k' = mget m k' := by
  simp [mset, h]

@[simp]
theorem mget_mdel_self {α : Type} (m : List (String × α)) (k : String) :
    mget (mdel m k) k = none := by
  induction m with
  | nil => rfl
  | cons kv rest ih =>
      obtain ⟨k1, v1⟩ := kv
      by_cases h : k1 = k
      · simpa [mdel, h] using ih
      · simpa [mdel, List.filter, h] using ih

theorem mget_set {o : Obj} {k k' : String} {v : JVal} :
    mget (Obj.set o k v) k' = if k = k' then some v else mget o k' := by
  simp [Obj.set, mset]

theorem mget_setIfSome_ne {o : Obj} {k k' : String} {v : Option JVal}
    (h : ¬ (k = k')) : mget (Obj.setIfSome o k v) k' = mget o k' := by
  cases v with
  | none => rfl
  | some x => simp [Obj.setIfSome, mget_set, h]

theorem mget_setIfTruthy_ne {o : Obj} {k k' : String} {v : Option String}
    (h : ¬ (k = k')) : mget (Obj.setIfTruthy o k v) k' = mget o k' := by
  simp [Obj.setIfTruthy, mget_setIfSome_ne h]

theorem string_length_pos {s : String} (h : ¬ (s = "")) : 0 < s.length := by
  cases s with
  | mk data =>
    cases data with
    | nil => exact absurd rfl h
    | cons c cs => simp [String.length]

@[simp]
theorem asString_str (s : String) :
    asString (.str s) = if s = "" then none else some s := by
  by_cases h : s = ""
  · subst h; rfl
  · simp [asString, h, string_length_pos h]

/-- C3: for a commandExecution item, `item/started` with command "ls", two
`item/commandExecution/outputDelta` notifications "o" and "k", and an
`item/completed` with exitCode 0 and no output field yield one
`exec_command_end` event with output "ok" (from the output buffer),
exit_code 0, and command "ls" taken from the start-time metadata (also when
the completion payload carries a different command); the metadata entry and
the output buffer for the item id are deleted afterwards. -/
theorem c3_exec_command_end_scenario :
    (handleNotification
      (handleNotification
        (handleNotification
          (handleNotification initConvState "item/started"
            (.obj [("item", .obj [("type", .str "commandExecution"),
              ("id", .str "c1"), ("command", .str "ls")])])).1
          "item/commandExecution/outputDelta"
          (.obj [("id", .str "c1"), ("delta", .str "o")])).1
        "item/commandExecution/outputDelta"
        (.obj [("id", .str "c1"), ("delta", .str "k")])).1
      "item/completed"
      (.obj [("item", .obj [("type", .str "commandExecution"),
        ("id", .str "c1"), ("exitCode", .num 0)])])).2.length = 1 ∧
    (let final := handleNotification
      (handleNotification
        (handleNotification
          (handleNotification initConvState "item/started"
            (.obj [("item", .obj [("type", .str "commandExecution"),
              ("id", .str "c1"), ("command", .str "ls")])])).1
          "item/commandExecution/outputDelta"
          (.obj [("id", .str "c1"), ("delta", .str "o")])).1
        "item/commandExecution/outputDelta"
        (.obj [("id", .str "c1"), ("delta", .str "k")])).1
      "item/completed"
      (.obj [("item", .obj [("type", .str "commandExecution"),
        ("id", .str "c1"), ("exitCode", .num 0)])])
     let ev := final.2.headD []
     mget ev "type" = some (.str "exec_command_end") ∧
     mget ev "output" = some (.str "ok") ∧
     mget ev "exit_code" = some (.num 0) ∧
     mget ev "command" = some (.str "ls") ∧
     mget final.1.commandMeta "c1" = none ∧
     mget final.1.commandOutputBuffers "c1" = none) ∧
    (let ev2 := ((handleNotification
      (handleNotification
        (handleNotification
          (handleNotification initConvState "item/started"
            (.obj [("item", .obj [("type", .str "commandExecution"),
              ("id", .str "c1"), ("command", .str "ls")])])).1
          "item/commandExecution/outputDelta"
          (.obj [("id", .str "c1"), ("delta", .str "o")])).1
        "item/commandExecution/outputDelta"
        (.obj [("id", .str "c1"), ("delta", .str "k")])).1
      "item/completed"
      (.obj [("item", .obj [("type", .str "commandExecution"),
        ("id", .str "c1"), ("exitCode", .num 0), ("command", .str "pwd")])])).2.headD [])
     mget ev2 "command" = some (.str "ls")) :=
  ⟨rfl, ⟨rfl, rfl, rfl, rfl, rfl, rfl⟩, rfl⟩

/-- C8: `reset()` unconditionally empties all five stream buffers and both
metadata caches; consequently no buffered text survives a reset: completing
a previously started-and-buffered agentMessage item with no explicit text
yields no event at all, and completing a previously started-and-buffered
commandExecution item yields an `exec_command_end` with neither output nor
start-time command metadata. -/
theorem c8_reset_clears_buffers :
    (∀ st : ConvState, st.reset = initConvState) ∧
    ((handleNotification
      ((handleNotification initConvState "item/agentMessage/delta"
        (.obj [("id", .str "m1"), ("delta", .str "secret")])).1.reset)
      "item/completed"
      (.obj [("item", .obj [("type", .str "agentMessage"), ("id", .str "m1")])])).2
      = []) ∧
    (let evs := (handleNotification
      ((handleNotification
        (handleNotification initConvState "item/started"
          (.obj [("item", .obj [("type", .str "commandExecution"),
            ("id", .str "c1"), ("command", .str "ls")])])).1
        "item/commandExecution/outputDelta"
        (.obj [("id", .str "c1"), ("delta", .str "x")])).1.reset)
      "item/completed"
      (.obj [("item", .obj [("type", .str "commandExecution"),
        ("id", .str "c1"), ("exitCode", .num 0)])])).2
     evs.length = 1 ∧
     mget (evs.headD []) "output" = none ∧
     mget (evs.headD []) "command" = none) :=
  ⟨fun _ => rfl, rfl, rfl, rfl, rfl⟩

/-- C2: every `turn/completed` notification yields exactly one event; for a
payload carrying a status string and a message string, the event type is
decided by the case-folded status — `interrupted`/`cancelled`/`canceled`
give `turn_aborted`, `failed`/`error` give `task_failed` carrying the
extracted message as `error`, anything else gives `task_complete`; in
particular "Interrupted" gives `turn_aborted`, "Failed" with message "boom"
gives `task_failed` with error "boom", and a missing status gives
`task_complete`. -/
theorem c2_turn_completed_status_classification :
    (∀ (st : ConvState) (v : JVal),
      (handleNotification st "turn/completed" v).2.length = 1) ∧
    (∀ (st : ConvState) (s m : String), ¬ (s = "") → ¬ (m = "") →
      (mget ((handleNotification st "turn/completed"
        (.obj [("status", .str s), ("message", .str m)])).2.headD []) "type" =
        some (.str
          (if jsToLower s = "interrupted" ∨ jsToLower s = "cancelled" ∨ jsToLower s = "canceled"
           then "turn_aborted"
           else if jsToLower s = "failed" ∨ jsToLower s = "error"
           then "task_failed" else "task_complete"))) ∧
      ((jsToLower s = "failed" ∨ jsToLower s = "error") →
        mget ((handleNotification st "turn/completed"
          (.obj [("status", .str s), ("message", .str m)])).2.headD []) "error" =
          some (.str m))) ∧
    (mget ((handleNotification initConvState "turn/completed"
      (.obj [("status", .str "Interrupted")])).2.headD []) "type" =
      some (.str "turn_aborted")) ∧
    (mget ((handleNotification initConvState "turn/completed"
      (.obj [("status", .str "Failed"), ("message", .str "boom")])).2.headD []) "type" =
      some (.str "task_failed")) ∧
    (mget ((handleNotification initConvState "turn/completed"
      (.obj [("status", .str "Failed"), ("message", .str "boom")])).2.headD []) "error" =
      some (.str "boom")) ∧
    (mget ((handleNotification initConvState "turn/completed" (.obj [])).2.headD []) "type" =
      some (.str "task_complete")) := by
  refine ⟨?_, ?_, rfl, rfl, rfl, rfl⟩
  · intro st v
    have hglue : handleNotification st "turn/completed" v =
        (st, handleTurnCompleted ((asRecord v).getD [])) := rfl
    rw [hglue]
    generalize (asRecord v).getD [] = p
    simp only [handleTurnCompleted]
    split
    · rfl
    · split <;> rfl
  · intro st s m hs hm
    have hglue : handleNotification st "turn/completed"
        (.obj [("status", .str s), ("message", .str m)]) =
        (st, handleTurnCompleted [("status", .str s), ("message", .str m)]) := rfl
    rw [hglue]
    simp only [handleTurnCompleted, addStableFields, extractThreadId, extractTurnId,
      pickStatus, firstString, asStringO, asRecordO, jcoal, asString_str, hs, hm,
      Obj.setIfTruthy, Obj.setIfSome, Obj.set, truthyStr, mset, mget_cons, mget_nil,
      Option.bind, Option.map, if_false, if_true]
    constructor
    · split
      · rename_i h
        simp only [Option.some.injEq] at h
        simp [h]
      · rename_i h
        simp only [Option.some.injEq] at h
        split
        · rename_i h2
          simp only [Option.some.injEq] at h2
          simp [h, h2, hm]
        · rename_i h2
          simp only [Option.some.injEq] at h2
          simp [h, h2, hm]
    · intro hfe
      split
      · rename_i h
        simp only [Option.some.injEq] at h
        exfalso
        rcases hfe with hf | he <;> rcases h with h | h | h <;> simp_all
      · rename_i h
        split
        · simp [hm]
        · rename_i h2
          simp only [Option.some.injEq, not_or] at h2
          exfalso
          rcases hfe with hf | he <;> simp_all

/-- Witness for C2: the classification conjunct applied at status
"Interrupted" / message "boom" on a fresh converter. -/
theorem c2_turn_completed_status_classification_witness :
    mget ((handleNotification initConvState "turn/completed"
      (.obj [("status", .str "Interrupted"), ("message", .str "boom")])).2.headD []) "type" =
      some (.str "turn_aborted") :=
  (c2_turn_completed_status_classification.2.1 initConvState "Interrupted" "boom"
    (by decide) (by decide)).1

/-- C5: an `error` notification whose payload carries a true `will_retry`
(or `willRetry`) flag is suppressed entirely — no event and no state change;
otherwise exactly one `task_failed` event is emitted carrying a message, the
structured error-info object when present, the additional-details object
when present, and a numeric HTTP status code when extractable (shown both at
a top-level and a nested extraction site, for a false flag, and for an
entirely empty payload where the message falls back to a fixed string). -/
theorem c5_error_retry_suppression :
    (∀ (st : ConvState) (p : Obj), mget p "will_retry" = some (.bool true) →
      handleNotification st "error" (.obj p) = (st, [])) ∧
    (∀ (st : ConvState) (p : Obj), mget p "will_retry" = none →
      mget p "willRetry" = some (.bool true) →
      handleNotification st "error" (.obj p) = (st, [])) ∧
    ((handleNotification initConvState "error"
      (.obj [("message", .str "boom"),
        ("codexErrorInfo", .obj [("httpStatusCode", .num 429)]),
        ("additionalDetails", .obj [("hint", .str "h")])])).2 =
      [[("http_status_code", .num 429),
        ("additional_details", .obj [("hint", .str "h")]),
        ("codex_error_info", .obj [("httpStatusCode", .num 429)]),
        ("type", .str "task_failed"),
        ("error", .str "boom")]]) ∧
    ((handleNotification initConvState "error"
      (.obj [("will_retry", .bool false), ("message", .str "x")])).2 =
      [[("type", .str "task_failed"), ("error", .str "x")]]) ∧
    ((handleNotification initConvState "error"
      (.obj [("error", .obj [("message", .str "nested"),
        ("codex_error_info", .obj [("http_status_code", .num 500)])])])).2 =
      [[("http_status_code", .num 500),
        ("codex_error_info", .obj [("http_status_code", .num 500)]),
        ("type", .str "task_failed"),
        ("error", .str "nested")]]) ∧
    ((handleNotification initConvState "error" (.obj [])).2 =
      [[("type", .str "task_failed"), ("error", .str "Unknown app-server error")]]) := by
  refine ⟨?_, ?_, rfl, rfl, rfl, rfl⟩
  · intro st p h
    have hglue : handleNotification st "error" (.obj p) =
        (st, handleErrorNotification p) := rfl
    rw [hglue]
    simp [handleErrorNotification, h, jcoal, asBooleanO, asBoolean, Option.bind]
  · intro st p h1 h2
    have hglue : handleNotification st "error" (.obj p) =
        (st, handleErrorNotification p) := rfl
    rw [hglue]
    simp [handleErrorNotification, h1, h2, jcoal, asBooleanO, asBoolean, Option.bind]

/-- Witness for C5: the suppression conjuncts applied to concrete payloads
with a true `will_retry` / `willRetry` flag. -/
theorem c5_error_retry_suppression_witness :
    handleNotification initConvState "error"
      (.obj [("will_retry", .bool true), ("message", .str "x")]) =
      (initConvState, []) ∧
    handleNotification initConvState "error"
      (.obj [("willRetry", .bool true)]) = (initConvState, []) :=
  ⟨c5_error_retry_suppression.1 initConvState
      [("will_retry", .bool true), ("message", .str "x")] rfl,
   c5_error_retry_suppression.2.1 initConvState [("willRetry", .bool true)] rfl rfl⟩

theorem string_ne_empty_of_length_pos {s : String} (h : 0 < s.length) : ¬ (s = "") := by
  intro he
  subst he
  exact absurd h (by decide)

theorem agentMessageDelta_step (st : ConvState) (id f : String) (hid : ¬ (id = "")) :
    handleAgentMessageDelta st [("id", .str id), ("delta", .str f)] =
      bumpAgentBuffer st id f := by
  by_cases hf : f = ""
  · simp [handleAgentMessageDelta, bumpAgentBuffer, extractItemId, jcoal, asStringO,
      asString_str, hid, hf, Option.bind]
  · simp [handleAgentMessageDelta, bumpAgentBuffer, extractItemId, jcoal, asStringO,
      asString_str, hid, hf, Option.bind]

theorem agentMessage_completed_eval (st : ConvState) (id : String) (hid : ¬ (id = "")) :
    handleNotification st "item/completed"
      (.obj [("item", .obj [("type", .str "agentMessage"), ("id", .str id)])]) =
    itemAgentMessage st "item/completed"
      [("item", .obj [("type", .str "agentMessage"), ("id", .str id)])]
      [("type", .str "agentMessage"), ("id", .str id)] id none := by
  have hglue : handleNotification st "item/completed"
      (.obj [("item", .obj [("type", .str "agentMessage"), ("id", .str id)])]) =
      handleItemNotification st "item/completed"
        [("item", .obj [("type", .str "agentMessage"), ("id", .str id)])] := rfl
  rw [hglue]
  have hitem : extractItem
      [("item", JVal.obj [("type", JVal.str "agentMessage"), ("id", JVal.str id)])] =
      [("type", JVal.str "agentMessage"), ("id", JVal.str id)] := rfl
  have hnorm : normalizeItemType (jcoal
      (mget [("type", JVal.str "agentMessage"), ("id", JVal.str id)] "type")
      (jcoal (mget [("type", JVal.str "agentMessage"), ("id", JVal.str id)] "itemType")
        (mget [("type", JVal.str "agentMessage"), ("id", JVal.str id)] "kind"))) =
      some "agentmessage" := rfl
  have hiid : extractItemId
      [("item", JVal.obj [("type", JVal.str "agentMessage"), ("id", JVal.str id)])] =
      some id := by
    simp [extractItemId, jcoal, asStringO, asString_str, hid, Option.bind, asRecordO, asRecord]
  have hstat : asStringO (mget
      [("type", JVal.str "agentMessage"), ("id", JVal.str id)] "status") = none := rfl
  simp only [handleItemNotification, hitem, hnorm, hiid, hstat, Option.orElse]
  simp

theorem agentDelta_fold_buffer (id : String) (hid : ¬ (id = "")) (frags : List String)
    (st : ConvState) :
    mget ((frags.foldl (fun s f => (handleNotification s "item/agentMessage/delta"
      (.obj [("id", .str id), ("delta", .str f)])).1) st)).agentMessageBuffers id =
    (if concatAll frags = "" then mget st.agentMessageBuffers id
     else some ((mget st.agentMessageBuffers id).getD "" ++ concatAll frags)) := by
  induction frags generalizing st with
  | nil => simp [concatAll]
  | cons f fs ih =>
    have hstep : (handleNotification st "item/agentMessage/delta"
        (.obj [("id", .str id), ("delta", .str f)])).1 = bumpAgentBuffer st id f := by
      have hglue : handleNotification st "item/agentMessage/delta"
          (.obj [("id", .str id), ("delta", .str f)]) =
          (handleAgentMessageDelta st [("id", .str id), ("delta", .str f)], []) := rfl
      rw [hglue, agentMessageDelta_step st id f hid]
    rw [List.foldl_cons, hstep, ih]
    by_cases hf : f = ""
    · simp [bumpAgentBuffer, hf, concatAll, String.empty_append]
    · have hne : ¬ (f ++ concatAll fs = "") := by
        apply string_ne_empty_of_length_pos
        rw [String.length_append]
        exact Nat.lt_of_lt_of_le (string_length_pos hf) (Nat.le_add_right _ _)
      by_cases hfs : concatAll fs = ""
      · simp [bumpAgentBuffer, hf, concatAll, hfs, hne, String.append_empty]
      · simp [bumpAgentBuffer, hf, concatAll, hfs, hne, String.append_assoc]

/-- C4: for every item id and every splitting of a string into consecutive
fragments, feeding the fragments one at a time as `item/agentMessage/delta`
notifications and then completing the agentMessage item (with no explicit
text on the completion payload) emits the same events as feeding the whole
concatenation as a single delta and then completing; when the concatenation
is non-empty this is exactly one `agent_message` event whose message is the
full concatenation. -/
theorem c4_agent_message_delta_associativity :
    ∀ (id : String) (frags : List String), ¬ (id = "") →
      ((handleNotification
        (frags.foldl (fun s f => (handleNotification s "item/agentMessage/delta"
          (.obj [("id", .str id), ("delta", .str f)])).1) initConvState)
        "item/completed"
        (.obj [("item", .obj [("type", .str "agentMessage"), ("id", .str id)])])).2 =
       (handleNotification
        (handleNotification initConvState "item/agentMessage/delta"
          (.obj [("id", .str id), ("delta", .str (concatAll frags))])).1
        "item/completed"
        (.obj [("item", .obj [("type", .str "agentMessage"), ("id", .str id)])])).2) ∧
      (¬ (concatAll frags = "") →
       (let evs := (handleNotification
          (frags.foldl (fun s f => (handleNotification s "item/agentMessage/delta"
            (.obj [("id", .str id), ("delta", .str f)])).1) initConvState)
          "item/completed"
          (.obj [("item", .obj [("type", .str "agentMessage"), ("id", .str id)])])).2
        evs.length = 1 ∧
        mget (evs.headD []) "type" = some (.str "agent_message") ∧
        mget (evs.headD []) "message" = some (.str (concatAll frags)))) := by
  intro id frags hid
  have hsplit := agentDelta_fold_buffer id hid frags initConvState
  have hsingle : mget ((handleNotification initConvState "item/agentMessage/delta"
      (.obj [("id", .str id), ("delta", .str (concatAll frags))])).1).agentMessageBuffers id =
      (if concatAll frags = "" then none else some (concatAll frags)) := by
    have hglue : handleNotification initConvState "item/agentMessage/delta"
        (.obj [("id", .str id), ("delta", .str (concatAll frags))]) =
        (handleAgentMessageDelta initConvState
          [("id", .str id), ("delta", .str (concatAll frags))], []) := rfl
    rw [hglue]
    show mget (handleAgentMessageDelta initConvState
      [("id", .str id), ("delta", .str (concatAll frags))]).agentMessageBuffers id = _
    rw [agentMessageDelta_step initConvState id (concatAll frags) hid]
    by_cases hc : concatAll frags = ""
    · simp [bumpAgentBuffer, hc, initConvState]
    · simp [bumpAgentBuffer, hc, initConvState]
  have hsplit' : mget ((frags.foldl (fun s f =>
      (handleNotification s "item/agentMessage/delta"
        (.obj [("id", .str id), ("delta", .str f)])).1) initConvState)).agentMessageBuffers id =
      (if concatAll frags = "" then none else some (concatAll frags)) := by
    rw [hsplit]
    by_cases hc : concatAll frags = ""
    · simp [hc, initConvState]
    · simp [hc, initConvState, String.empty_append]
  rw [agentMessage_completed_eval _ id hid, agentMessage_completed_eval _ id hid]
  constructor
  · simp only [itemAgentMessage, jcoal, asStringO, Option.bind, mget_cons, mget_nil,
      Option.orElse, if_true, if_false]
    rw [hsplit', hsingle]
  · intro hne
    simp only [itemAgentMessage, jcoal, asStringO, Option.bind, mget_cons, mget_nil,
      Option.orElse, if_true, if_false]
    rw [hsplit']
    simp [hne, addStableFields, extractThreadId, extractTurnId,
      pickStatus, firstString, Obj.setIfTruthy, Obj.setIfSome, Obj.set, truthyStr,
      mset, hid, asStringO, jcoal, Option.bind, asRecordO, asRecord]

/-- Witness for C4: the associativity theorem applied to the fragments
"Hello" and " world", checking both conjuncts at that concrete input. -/
theorem c4_agent_message_delta_associativity_witness :
    ((handleNotification
      ((["Hello", " world"] : List String).foldl (fun s f =>
        (handleNotification s "item/agentMessage/delta"
          (.obj [("id", .str "m1"), ("delta", .str f)])).1) initConvState)
      "item/completed"
      (.obj [("item", .obj [("type", .str "agentMessage"), ("id", .str "m1")])])).2 =
     (handleNotification
      (handleNotification initConvState "item/agentMessage/delta"
        (.obj [("id", .str "m1"),
               ("delta", .str (concatAll ["Hello", " world"]))])).1
      "item/completed"
      (.obj [("item", .obj [("type", .str "agentMessage"), ("id", .str "m1")])])).2) ∧
    (mget ((handleNotification
      ((["Hello", " world"] : List String).foldl (fun s f =>
        (handleNotification s "item/agentMessage/delta"
          (.obj [("id", .str "m1"), ("delta", .str f)])).1) initConvState)
      "item/completed"
      (.obj [("item", .obj [("type", .str "agentMessage"), ("id", .str "m1")])])).2.headD [])
      "message" = some (.str (concatAll ["Hello", " world"]))) :=
  ⟨(c4_agent_message_delta_associativity "m1" ["Hello", " world"] (by decide)).1,
   ((c4_agent_message_delta_associativity "m1" ["Hello", " world"] (by decide)).2
     (by decide)).2.2⟩

theorem normTy_plan : normalizeItemType (some (.str "plan")) = some "plan" := rfl

theorem normTy_commandExecution :
    normalizeItemType (some (.str "commandExecution")) = some "commandexecution" := rfl

theorem normTy_fileChange :
    normalizeItemType (some (.str "fileChange")) = some "filechange" := rfl

theorem normTy_mcpToolCall :
    normalizeItemType (some (.str "mcpToolCall")) = some "mcptoolcall" := rfl

theorem normTy_collabToolCall :
    normalizeItemType (some (.str "collabToolCall")) = some "collabtoolcall" := rfl

theorem normTy_webSearch :
    normalizeItemType (some (.str "webSearch")) = some "websearch" := rfl

theorem normTy_imageView :
    normalizeItemType (some (.str "imageView")) = some "imageview" := rfl

theorem normTy_enteredReviewMode :
    normalizeItemType (some (.str "enteredReviewMode")) = some "enteredreviewmode" := rfl

theorem normTy_exitedReviewMode :
    normalizeItemType (some (.str "exitedReviewMode")) = some "exitedreviewmode" := rfl

theorem normTy_contextCompaction :
    normalizeItemType (some (.str "contextCompaction")) = some "contextcompaction" := rfl

theorem normTy_agentMessage :
    normalizeItemType (some (.str "agentMessage")) = some "agentmessage" := rfl

theorem normTy_reasoning :
    normalizeItemType (some (.str "reasoning")) = some "reasoning" := rfl

theorem hn_item_completed (st : ConvState) (p : Obj) :
    handleNotification st "item/completed" (.obj p) =
      handleItemNotification st "item/completed" p := rfl

/-- Counterexample for C7: an `item/completed` for a recognized item type
(agentMessage) and an item id with no prior `item/started` emits NO event at
all when the completion payload carries no text — the claim that every such
completion "yields a valid terminal event" fails for textless agentMessage
(and reasoning) completions. -/
theorem c7_counterexample_textless_agent_message :
    (handleNotification initConvState "item/completed"
      (.obj [("item", .obj [("type", .str "agentMessage"), ("id", .str "a1")])])).2 = [] := rfl

/-- C7 (amended): an `item/completed` for an item id with no prior
`item/started` degrades gracefully: for the ten item types whose completion
handler emits unconditionally (plan, commandExecution, fileChange,
mcpToolCall, collabToolCall, webSearch, imageView, enteredReviewMode,
exitedReviewMode, contextCompaction) exactly one terminal event of the
expected type is emitted, built only from completion-time fields (the saved
metadata lookup degrading to an empty record); for agentMessage and
reasoning items a terminal event is emitted exactly when the completion
payload carries text, and a textless completion emits nothing. -/
theorem c7_amended_completion_without_start :
    ∀ (iid : String), ¬ (iid = "") →
    (∀ (ty ev : String),
      (ty, ev) ∈ ([("plan", "plan_item_completed"),
        ("commandExecution", "exec_command_end"),
        ("fileChange", "patch_apply_end"),
        ("mcpToolCall", "mcp_tool_call_end"),
        ("collabToolCall", "collab_tool_call_end"),
        ("webSearch", "web_search_end"),
        ("imageView", "image_view_end"),
        ("enteredReviewMode", "review_mode_entered"),
        ("exitedReviewMode", "review_mode_exited"),
        ("contextCompaction", "context_compaction_completed")] : List (String × String)) →
      ((handleNotification initConvState "item/completed"
        (.obj [("item", .obj [("type", .str ty), ("id", .str iid)])])).2.length = 1 ∧
       mget ((handleNotification initConvState "item/completed"
        (.obj [("item", .obj [("type", .str ty), ("id", .str iid)])])).2.headD [])
        "type" = some (.str ev) ∧
       mget ((handleNotification initConvState "item/completed"
        (.obj [("item", .obj [("type", .str ty), ("id", .str iid)])])).2.headD [])
        "item_id" = some (.str iid))) ∧
    ((handleNotification initConvState "item/completed"
      (.obj [("item", .obj [("type", .str "agentMessage"), ("id", .str iid),
        ("text", .str "hi")])])).2 =
      [[("item_id", .str iid), ("item_id", .str iid), ("message", .str "hi"),
        ("type", .str "agent_message")]]) ∧
    ((handleNotification initConvState "item/completed"
      (.obj [("item", .obj [("type", .str "reasoning"), ("id", .str iid),
        ("text", .str "hi")])])).2 =
      [[("item_id", .str iid), ("item_id", .str iid), ("text", .str "hi"),
        ("type", .str "agent_reasoning")]]) ∧
    ((handleNotification initConvState "item/completed"
      (.obj [("item", .obj [("type", .str "agentMessage"), ("id", .str iid)])])).2 = []) ∧
    ((handleNotification initConvState "item/completed"
      (.obj [("item", .obj [("type", .str "reasoning"), ("id", .str iid)])])).2 = []) := by
  intro iid hid
  refine ⟨?_, ?_, ?_, ?_, ?_⟩
  · intro ty ev hmem
    simp only [List.mem_cons, List.not_mem_nil, or_false] at hmem
    rcases hmem with h|h|h|h|h|h|h|h|h|h <;>
      (simp only [Prod.mk.injEq] at h; obtain ⟨rfl, rfl⟩ := h; rw [hn_item_completed]) <;>
      simp [handleItemNotification, extractItem, extractItemId, asRecordO, asRecord,
        asStringO, jcoal, asString_str, hid, Option.orElse, Option.bind,
        normTy_plan, normTy_commandExecution, normTy_fileChange, normTy_mcpToolCall,
        normTy_collabToolCall, normTy_webSearch, normTy_imageView,
        normTy_enteredReviewMode, normTy_exitedReviewMode, normTy_contextCompaction,
        itemPlan, itemCommandExecution, itemFileChange, itemMcpToolCall,
        itemCollabToolCall, itemWebSearch, itemImageView, itemReviewMode,
        itemContextCompaction, statusStrictCompleted,
        asTextO, asNumberO, asBooleanO, asText, asNumber, asBoolean, extractCommand,
        extractChanges, jvalOr, addStableFields, extractThreadId, extractTurnId,
        pickStatus, firstString, Obj.setIfTruthy, Obj.setIfSome, Obj.set, Obj.spread,
        truthyStr, mset, initConvState]
  · rw [hn_item_completed]
    simp [handleItemNotification, extractItem, extractItemId, asRecordO, asRecord,
      asStringO, jcoal, asString_str, hid, Option.orElse, Option.bind,
      normTy_agentMessage, itemAgentMessage, addStableFields, extractThreadId,
      extractTurnId, pickStatus, firstString, Obj.setIfTruthy, Obj.setIfSome,
      Obj.set, truthyStr, mset, initConvState]
  · rw [hn_item_completed]
    simp [handleItemNotification, extractItem, extractItemId, asRecordO, asRecord,
      asStringO, jcoal, asString_str, hid, Option.orElse, Option.bind,
      normTy_reasoning, itemReasoning, addStableFields, extractThreadId,
      extractTurnId, pickStatus, firstString, Obj.setIfTruthy, Obj.setIfSome,
      Obj.set, truthyStr, mset, initConvState]
  · rw [hn_item_completed]
    simp [handleItemNotification, extractItem, extractItemId, asRecordO, asRecord,
      asStringO, jcoal, asString_str, hid, Option.orElse, Option.bind,
      normTy_agentMessage, itemAgentMessage, initConvState]
  · rw [hn_item_completed]
    simp [handleItemNotification, extractItem, extractItemId, asRecordO, asRecord,
      asStringO, jcoal, asString_str, hid, Option.orElse, Option.bind,
      normTy_reasoning, itemReasoning, initConvState]

/-- Witness for C7 (amended): a commandExecution completion with no prior
start for item id "k1". -/
theorem c7_amended_completion_without_start_witness :
    (handleNotification initConvState "item/completed"
      (.obj [("item", .obj [("type", .str "commandExecution"),
        ("id", .str "k1")])])).2.length = 1 ∧
    mget ((handleNotification initConvState "item/completed"
      (.obj [("item", .obj [("type", .str "commandExecution"),
        ("id", .str "k1")])])).2.headD []) "type" = some (.str "exec_command_end") ∧
    mget ((handleNotification initConvState "item/completed"
      (.obj [("item", .obj [("type", .str "commandExecution"),
        ("id", .str "k1")])])).2.headD []) "item_id" = some (.str "k1") :=
  (c7_amended_completion_without_start "k1" (by decide)).1
    "commandExecution" "exec_command_end" (by decide)

theorem codeSuccess_eq (a b c : Option JVal) (d : Bool) :
    (asBooleanO (jcoal a (jcoal b (jcoal c (some (.bool d)))))).getD false =
    (match (jnn a).orElse (fun _ => (jnn b).orElse (fun _ => jnn c)) with
     | some (.bool x) => x
     | some _ => false
     | none => d) := by
  rcases a with _ | av <;> rcases b with _ | bv <;> rcases c with _ | cv <;>
    (try cases av) <;> (try cases bv) <;> (try cases cv) <;>
    simp [jcoal, asBooleanO, asBoolean, jnn, Option.orElse, Option.bind]

theorem patchSuccess_eq_claim (item : Obj) :
    (asBooleanO (jcoal (mget item "success")
      (jcoal (mget item "ok")
        (jcoal (mget item "applied")
          (some (.bool (statusStrictCompleted item))))))).getD false =
    claimPatchSuccess item :=
  codeSuccess_eq (mget item "success") (mget item "ok") (mget item "applied")
    (statusStrictCompleted item)

/-- C10: every `patch_apply_end` emitted on `item/completed` of a fileChange
item — here with no start-time metadata, and with arbitrary further item
fields — contains a `success` field that is a boolean, and its value is
exactly the derivation described by the claim (`claimPatchSuccess`): the
first non-nullish of `success`/`ok`/`applied` when boolean, `false` when
that first value is non-boolean, else `status == "completed"`. -/
theorem c10_patch_apply_success_field :
    ∀ (extra : Obj),
    (handleNotification initConvState "item/completed"
      (.obj [("item", .obj (("type", .str "fileChange") ::
        ("id", .str "f1") :: extra))])).2.length = 1 ∧
    mget ((handleNotification initConvState "item/completed"
      (.obj [("item", .obj (("type", .str "fileChange") ::
        ("id", .str "f1") :: extra))])).2.headD [])
      "success" = some (.bool (claimPatchSuccess
        (("type", .str "fileChange") :: ("id", .str "f1") :: extra))) := by
  intro extra
  simp only [hn_item_completed]
  constructor
  · simp [handleItemNotification, extractItem, extractItemId, asRecordO, asRecord,
      asStringO, jcoal, asString_str, Option.orElse, Option.bind, normTy_fileChange,
      itemFileChange, initConvState]
  · have hps := patchSuccess_eq_claim
      (("type", JVal.str "fileChange") :: ("id", JVal.str "f1") :: extra)
    simp [jcoal, asBooleanO, asBoolean, Option.getD, Option.bind] at hps
    simp [handleItemNotification, extractItem, extractItemId, asRecordO, asRecord,
      asStringO, jcoal, asBooleanO, asBoolean, Option.getD, asString_str,
      Option.orElse, Option.bind, normTy_fileChange,
      itemFileChange, initConvState, addStableFields,
      mget_setIfTruthy_ne, mget_set, Obj.spread, hps]

theorem planUpd_step (st : EmitterState) (turnId : String) (hid : ¬ (turnId = "")) :
    handleCodexEvent st [("type", .str "turn_plan_updated"), ("turn_id", .str turnId)] =
    ({ st with planCallIdByTurn := mset st.planCallIdByTurn turnId ("turn-plan:" ++ turnId) },
     [OutMsg.toolCall "ExitPlanMode" ("turn-plan:" ++ turnId)
       (.obj [("explanation", .null), ("plan", .arr []),
              ("updated_from", .str "turn/plan/updated")])
       [("turn_id", .str turnId)]]) := by
  simp [handleCodexEvent, toTraceFields, asStringO, jcoal, asString_str, hid,
    Obj.setIfTruthy, Obj.setIfSome, Obj.set, truthyStr, mset, jvalOr, Option.bind]

theorem terminal_step (st : EmitterState) (turnId term c : String)
    (hid : ¬ (turnId = ""))
    (hterm : term ∈ (["task_complete", "turn_aborted", "task_failed"] : List String))
    (hopen : mget st.planCallIdByTurn turnId = some c) :
    handleCodexEvent st [("type", .str term), ("turn_id", .str turnId)] =
    ({ st with currentTurnId := none, turnInFlight := false,
               planCallIdByTurn := mdel st.planCallIdByTurn turnId },
     OutMsg.toolCallResult c
       (.obj [("status", .str term), ("error", .null)])
       (term == "task_failed") [("turn_id", .str turnId)] ::
     (if term = "task_failed"
      then [OutMsg.passthrough [("type", .str term), ("turn_id", .str turnId)]]
      else [])) := by
  simp only [List.mem_cons, List.not_mem_nil, or_false] at hterm
  rcases hterm with rfl | rfl | rfl <;>
    simp [handleCodexEvent, toTraceFields, asStringO, jcoal, asString_str, hid, hopen,
      Obj.setIfTruthy, Obj.setIfSome, Obj.set, truthyStr, mset, jvalOr, Option.bind]

/-- C1: from any emitter state, a `turn_plan_updated` for a turn id followed
by a terminal event (`task_complete`, `turn_aborted` or `task_failed`) for
the same turn id produces exactly one tool-call and exactly one
tool-call-result with the plan call id `turn-plan:<turnId>`; the result is
emitted first among the terminal event's messages, its output is tagged with
the terminal status, its error flag is set exactly for `task_failed`, and
the turn id is removed from the plan-call map, so no plan call stays open
past turn end. -/
theorem c1_plan_call_closed_at_turn_end :
    ∀ (st : EmitterState) (turnId term : String), ¬ (turnId = "") →
    term ∈ (["task_complete", "turn_aborted", "task_failed"] : List String) →
    (countToolCalls
      ((handleCodexEvent st
        [("type", .str "turn_plan_updated"), ("turn_id", .str turnId)]).2 ++
       (handleCodexEvent
        (handleCodexEvent st
          [("type", .str "turn_plan_updated"), ("turn_id", .str turnId)]).1
        [("type", .str term), ("turn_id", .str turnId)]).2)
      ("turn-plan:" ++ turnId) = 1) ∧
    (countToolResults
      ((handleCodexEvent st
        [("type", .str "turn_plan_updated"), ("turn_id", .str turnId)]).2 ++
       (handleCodexEvent
        (handleCodexEvent st
          [("type", .str "turn_plan_updated"), ("turn_id", .str turnId)]).1
        [("type", .str term), ("turn_id", .str turnId)]).2)
      ("turn-plan:" ++ turnId) = 1) ∧
    ((handleCodexEvent
        (handleCodexEvent st
          [("type", .str "turn_plan_updated"), ("turn_id", .str turnId)]).1
        [("type", .str term), ("turn_id", .str turnId)]).2.headD
        (OutMsg.passthrough []) =
      OutMsg.toolCallResult ("turn-plan:" ++ turnId)
        (.obj [("status", .str term), ("error", .null)])
        (term == "task_failed") [("turn_id", .str turnId)]) ∧
    (mget (handleCodexEvent
        (handleCodexEvent st
          [("type", .str "turn_plan_updated"), ("turn_id", .str turnId)]).1
        [("type", .str term), ("turn_id", .str turnId)]).1.planCallIdByTurn
      turnId = none) := by
  intro st turnId term hid hterm
  rw [planUpd_step st turnId hid]
  rw [terminal_step _ turnId term ("turn-plan:" ++ turnId) hid hterm (mget_mset_self _ _ _)]
  simp only [List.mem_cons, List.not_mem_nil, or_false] at hterm
  rcases hterm with rfl | rfl | rfl <;>
    simp [countToolCalls, countToolResults, mget_mdel_self, List.filter, mset]

/-- Witness for C1: a `turn_plan_updated` then `task_failed` for turn "t7"
on a fresh emitter. -/
theorem c1_plan_call_closed_at_turn_end_witness :
    (countToolCalls
      ((handleCodexEvent initEmitterState
        [("type", .str "turn_plan_updated"), ("turn_id", .str "t7")]).2 ++
       (handleCodexEvent
        (handleCodexEvent initEmitterState
          [("type", .str "turn_plan_updated"), ("turn_id", .str "t7")]).1
        [("type", .str "task_failed"), ("turn_id", .str "t7")]).2)
      ("turn-plan:" ++ "t7") = 1) ∧
    (countToolResults
      ((handleCodexEvent initEmitterState
        [("type", .str "turn_plan_updated"), ("turn_id", .str "t7")]).2 ++
       (handleCodexEvent
        (handleCodexEvent initEmitterState
          [("type", .str "turn_plan_updated"), ("turn_id", .str "t7")]).1
        [("type", .str "task_failed"), ("turn_id", .str "t7")]).2)
      ("turn-plan:" ++ "t7") = 1) ∧
    ((handleCodexEvent
        (handleCodexEvent initEmitterState
          [("type", .str "turn_plan_updated"), ("turn_id", .str "t7")]).1
        [("type", .str "task_failed"), ("turn_id", .str "t7")]).2.headD
        (OutMsg.passthrough []) =
      OutMsg.toolCallResult ("turn-plan:" ++ "t7")
        (.obj [("status", .str "task_failed"), ("error", .null)])
        ("task_failed" == "task_failed") [("turn_id", .str "t7")]) ∧
    (mget (handleCodexEvent
        (handleCodexEvent initEmitterState
          [("type", .str "turn_plan_updated"), ("turn_id", .str "t7")]).1
        [("type", .str "task_failed"), ("turn_id", .str "t7")]).1.planCallIdByTurn
      "t7" = none) :=
  c1_plan_call_closed_at_turn_end initEmitterState "t7" "task_failed"
    (by decide) (by decide)

/-- C6: call-id derivation correlates a begin with its matching end — an
explicit non-empty `call_id` is used verbatim (no fresh id is generated);
with no explicit call id, the item id is used, so a begin and an end
carrying the same item id derive the identical call id whatever the prefix
or uuid counter; end-to-end, the converter's begin/end events for one
mcpToolCall item id yield emitter messages sharing one call id. -/
theorem c6_call_id_correlation :
    (∀ (source : Obj) (c pfx : String) (n : Nat),
      mget source "call_id" = some (.str c) → ¬ (c = "") →
      extractCallId source pfx n = (c, n)) ∧
    (∀ (source : Obj) (i pfx : String) (n : Nat),
      ¬ (i = "") → mget source "call_id" = none → mget source "callId" = none →
      mget source "item_id" = some (.str i) →
      extractCallId source pfx n = (i, n)) ∧
    (∀ (bgn fin : Obj) (i p1 p2 : String) (n1 n2 : Nat), ¬ (i = "") →
      mget bgn "call_id" = none → mget bgn "callId" = none →
      mget bgn "item_id" = some (.str i) →
      mget fin "call_id" = none → mget fin "callId" = none →
      mget fin "item_id" = some (.str i) →
      (extractCallId bgn p1 n1).1 = (extractCallId fin p2 n2).1) ∧
    (((handleCodexEvent initEmitterState
        ((handleNotification initConvState "item/started"
          (.obj [("item", .obj [("type", .str "mcpToolCall"), ("id", .str "t1"),
            ("server", .str "s"), ("tool", .str "t")])])).2.headD [])).2.map
        OutMsg.callIdOf = [some "t1"]) ∧
     ((handleCodexEvent
        (handleCodexEvent initEmitterState
          ((handleNotification initConvState "item/started"
            (.obj [("item", .obj [("type", .str "mcpToolCall"), ("id", .str "t1"),
              ("server", .str "s"), ("tool", .str "t")])])).2.headD [])).1
        ((handleNotification initConvState "item/completed"
          (.obj [("item", .obj [("type", .str "mcpToolCall"), ("id", .str "t1"),
            ("server", .str "s"), ("tool", .str "t")])])).2.headD [])).2.map
        OutMsg.callIdOf = [some "t1"])) := by
  refine ⟨?_, ?_, ?_, rfl, rfl⟩
  · intro source c pfx n h hc
    simp [extractCallId, jcoal, asStringO, asString_str, h, hc, Option.bind]
  · intro source i pfx n hi h1 h2 h3
    simp [extractCallId, jcoal, asStringO, asString_str, h1, h2, h3, hi, Option.bind]
  · intro bgn fin i p1 p2 n1 n2 hi hb1 hb2 hb3 hf1 hf2 hf3
    simp [extractCallId, jcoal, asStringO, asString_str, hb1, hb2, hb3, hf1, hf2, hf3,
      hi, Option.bind]

/-- Witness for C6: derivation at a concrete begin/end pair sharing item id
"w1" with different prefixes and counters. -/
theorem c6_call_id_correlation_witness :
    extractCallId [("item_id", .str "w1")] "exec" 0 = ("w1", 0) ∧
    (extractCallId [("item_id", .str "w1")] "exec" 0).1 =
      (extractCallId [("item_id", .str "w1"), ("status", .str "done")] "patch" 5).1 :=
  ⟨c6_call_id_correlation.2.1 [("item_id", .str "w1")] "w1" "exec" 0
      (by decide) rfl rfl rfl,
   c6_call_id_correlation.2.2.1 [("item_id", .str "w1")]
      [("item_id", .str "w1"), ("status", .str "done")] "w1" "exec" "patch" 0 5
      (by decide) rfl rfl rfl rfl rfl rfl⟩

/-- Counterexample for C9: with a plan call already open for turn "t1"
(call id "turn-plan:t1" in the map), an `agent_plan_delta` for that turn
does NOT reuse the open call id: it emits its tool-call under the event's
own item id "p1" (distinct from the open id) and leaves the map entry
unchanged; moreover a `plan_item_started` with no open call does NOT record
anything in the plan-call map. -/
theorem c9_counterexample_plan_call_id_reuse :
    ((handleCodexEvent
        { planCallIdByTurn := [("t1", "turn-plan:t1")], currentThreadId := none,
          currentTurnId := none, turnInFlight := false, uuidCounter := 0 }
        [("type", .str "agent_plan_delta"), ("item_id", .str "p1"),
         ("turn_id", .str "t1")]).2.map OutMsg.callIdOf = [some "p1"]) ∧
    ¬ ("p1" = "turn-plan:t1") ∧
    ((handleCodexEvent
        { planCallIdByTurn := [("t1", "turn-plan:t1")], currentThreadId := none,
          currentTurnId := none, turnInFlight := false, uuidCounter := 0 }
        [("type", .str "agent_plan_delta"), ("item_id", .str "p1"),
         ("turn_id", .str "t1")]).1.planCallIdByTurn = [("t1", "turn-plan:t1")]) ∧
    ((handleCodexEvent initEmitterState
        [("type", .str "plan_item_started"), ("item_id", .str "p2"),
         ("turn_id", .str "t2")]).1.planCallIdByTurn = []) :=
  ⟨rfl, by decide, rfl, rfl⟩

/-- C9 (amended): `turn_plan_updated` derives the deterministic call id
`turn-plan:<turnId>`, emits the exit-plan-mode tool-call under it and
records it in the plan-call map (overwriting); `agent_plan_delta` emits
under the call id derived from the event's own item id and records that id
only when no call is open for the turn (an open entry is kept unchanged);
`plan_item_started` emits under the event-derived call id and never touches
the emitter state at all. -/
theorem c9_amended_plan_call_map :
    (∀ (st : EmitterState) (turnId : String), ¬ (turnId = "") →
      ((handleCodexEvent st
        [("type", .str "turn_plan_updated"), ("turn_id", .str turnId)]).2.map
        OutMsg.callIdOf = [some ("turn-plan:" ++ turnId)]) ∧
      mget (handleCodexEvent st
        [("type", .str "turn_plan_updated"), ("turn_id", .str turnId)]).1.planCallIdByTurn
        turnId = some ("turn-plan:" ++ turnId)) ∧
    (∀ (st : EmitterState) (turnId iid : String), ¬ (turnId = "") → ¬ (iid = "") →
      ((handleCodexEvent st
        [("type", .str "agent_plan_delta"), ("item_id", .str iid),
         ("turn_id", .str turnId)]).2.map OutMsg.callIdOf = [some iid]) ∧
      mget (handleCodexEvent st
        [("type", .str "agent_plan_delta"), ("item_id", .str iid),
         ("turn_id", .str turnId)]).1.planCallIdByTurn turnId =
        some ((mget st.planCallIdByTurn turnId).getD iid)) ∧
    (∀ (st : EmitterState) (turnId iid : String), ¬ (turnId = "") → ¬ (iid = "") →
      ((handleCodexEvent st
        [("type", .str "plan_item_started"), ("item_id", .str iid),
         ("turn_id", .str turnId)]).2.map OutMsg.callIdOf = [some iid]) ∧
      (handleCodexEvent st
        [("type", .str "plan_item_started"), ("item_id", .str iid),
         ("turn_id", .str turnId)]).1 = st) := by
  refine ⟨?_, ?_, ?_⟩
  · intro st turnId h
    rw [planUpd_step st turnId h]
    simp [OutMsg.callIdOf, mget_mset_self]
  · intro st turnId iid ht hi
    rcases hm : mget st.planCallIdByTurn turnId with _ | c <;>
      simp [handleCodexEvent, extractCallId, toTraceFields, asStringO, jcoal,
        asString_str, ht, hi, hm, Obj.setIfTruthy, Obj.setIfSome, Obj.set, truthyStr,
        mset, jvalOr, Option.bind, OutMsg.callIdOf]
  · intro st turnId iid ht hi
    simp [handleCodexEvent, extractCallId, toTraceFields, asStringO, jcoal,
      asString_str, ht, hi, Obj.setIfTruthy, Obj.setIfSome, Obj.set, truthyStr,
      mset, jvalOr, Option.bind, OutMsg.callIdOf]

/-- Witness for C9 (amended): the three conjuncts at turn id "t1" and item
id "p1" on a fresh emitter. -/
theorem c9_amended_plan_call_map_witness :
    (((handleCodexEvent initEmitterState
        [("type", .str "turn_plan_updated"), ("turn_id", .str "t1")]).2.map
        OutMsg.callIdOf = [some ("turn-plan:" ++ "t1")]) ∧
      mget (handleCodexEvent initEmitterState
        [("type", .str "turn_plan_updated"), ("turn_id", .str "t1")]).1.planCallIdByTurn
        "t1" = some ("turn-plan:" ++ "t1")) ∧
    (((handleCodexEvent initEmitterState
        [("type", .str "agent_plan_delta"), ("item_id", .str "p1"),
         ("turn_id", .str "t1")]).2.map OutMsg.callIdOf = [some "p1"]) ∧
      mget (handleCodexEvent initEmitterState
        [("type", .str "agent_plan_delta"), ("item_id", .str "p1"),
         ("turn_id", .str "t1")]).1.planCallIdByTurn "t1" =
        some ((mget initEmitterState.planCallIdByTurn "t1").getD "p1")) ∧
    (((handleCodexEvent initEmitterState
        [("type", .str "plan_item_started"), ("item_id", .str "p1"),
         ("turn_id", .str "t1")]).2.map OutMsg.callIdOf = [some "p1"]) ∧
      (handleCodexEvent initEmitterState
        [("type", .str "plan_item_started"), ("item_id", .str "p1"),
         ("turn_id", .str "t1")]).1 = initEmitterState) :=
  ⟨c9_amended_plan_call_map.1 initEmitterState "t1" (by decide),
   c9_amended_plan_call_map.2.1 initEmitterState "t1" "p1" (by decide) (by decide),
   c9_amended_plan_call_map.2.2 initEmitterState "t1" "p1" (by decide) (by decide)⟩
